import Mathlib

/-!
# ElastiCache Global Replication Group: resource and data source

A shallow embedding of `aws/resource_aws_elasticache_global_replication_group.go`
and `aws/data_source_aws_elasticache_global_replication_group.go`.

Conventions of the embedding.

* A Go pointer to a scalar (`*string`, `*bool`) is an `Option`; `none` is `nil`.
* A Go slice that the code tests against `nil` is an `Option (List _)`.
* The Go `error` result is an `Option Err`; `none` is `nil`.  The errors that the
  API client returns form the type `ClientErr`.
* A run-time panic is an outcome of its own: a function that panics does not
  return.  A type assertion in single-value form panics when the value has
  another type at run time; `d.Get` returns a `[]interface{}` for a list.
* The ElastiCache client is a record of response functions.  Every request that
  is dispatched is appended to a trace, and the client answers a request from
  the trace of the requests dispatched before it, so a response may depend on
  everything that happened so far (in particular on how often the group was
  polled).
* `schema.ResourceData` is a record holding the ID, the keys of the schema, the
  attribute values of the prior state, the current attribute values and the
  configured timeouts.  Attributes are typed fields with Go zero values as
  defaults; `Get`, `Set` and `HasChange` address them by their string key.
* The Terraform SDK (`schema.ResourceData`, `resource.StateChangeConf`) and the
  helper `isAWSErr` are not part of the two files; their models are marked as
  such where they are defined.
* Elements of API lists are taken to be non-nil, as the AWS SDK returns them.
* Durations are natural numbers of seconds.
-/

namespace ElastiCacheGRG

/-! ## AWS SDK values -/

/-- Dereference of a string pointer, the empty string for nil (`aws.StringValue`). -/
def StringValue : Option String → String
  | some s => s
  | none => ""

/-- Dereference of a bool pointer, false for nil (`aws.BoolValue`). -/
def BoolValue : Option Bool → Bool
  | some b => b
  | none => false

/-- The API type `elasticache.GlobalReplicationGroupMember`. -/
structure GlobalReplicationGroupMember where
  AutomaticFailover : Option String := none
  ReplicationGroupId : Option String := none
  ReplicationGroupRegion : Option String := none
  Role : Option String := none
  Status : Option String := none
deriving DecidableEq, Repr

/-- The API type `elasticache.GlobalNodeGroup`. -/
structure GlobalNodeGroup where
  GlobalNodeGroupId : Option String := none
  Slots : Option String := none
deriving DecidableEq, Repr

/-- The API type `elasticache.GlobalReplicationGroup`. -/
structure GlobalReplicationGroup where
  ARN : Option String := none
  AtRestEncryptionEnabled : Option Bool := none
  AuthTokenEnabled : Option Bool := none
  CacheNodeType : Option String := none
  ClusterEnabled : Option Bool := none
  Engine : Option String := none
  EngineVersion : Option String := none
  GlobalNodeGroups : Option (List GlobalNodeGroup) := none
  GlobalReplicationGroupDescription : Option String := none
  GlobalReplicationGroupId : Option String := none
  Members : Option (List GlobalReplicationGroupMember) := none
  Status : Option String := none
  TransitEncryptionEnabled : Option Bool := none
deriving DecidableEq, Repr

structure CreateGlobalReplicationGroupInput where
  GlobalReplicationGroupDescription : Option String := none
  GlobalReplicationGroupIdSuffix : Option String := none
  PrimaryReplicationGroupId : Option String := none
deriving DecidableEq, Repr

structure CreateGlobalReplicationGroupOutput where
  GlobalReplicationGroup : GlobalReplicationGroup
deriving DecidableEq, Repr

structure DescribeGlobalReplicationGroupsInput where
  GlobalReplicationGroupId : Option String := none
  ShowMemberInfo : Option Bool := none
deriving DecidableEq, Repr

structure DescribeGlobalReplicationGroupsOutput where
  GlobalReplicationGroups : List GlobalReplicationGroup
deriving DecidableEq, Repr

structure ModifyGlobalReplicationGroupInput where
  ApplyImmediately : Option Bool := none
  AutomaticFailoverEnabled : Option Bool := none
  CacheNodeType : Option String := none
  EngineVersion : Option String := none
  GlobalReplicationGroupDescription : Option String := none
  GlobalReplicationGroupId : Option String := none
deriving DecidableEq, Repr

structure FailoverGlobalReplicationGroupInput where
  GlobalReplicationGroupId : Option String := none
  PrimaryRegion : Option String := none
  PrimaryReplicationGroupId : Option String := none
deriving DecidableEq, Repr

structure DeleteGlobalReplicationGroupInput where
  GlobalReplicationGroupId : Option String := none
  RetainPrimaryReplicationGroup : Option Bool := none
deriving DecidableEq, Repr

/-- The constant `elasticache.ErrCodeGlobalReplicationGroupNotFoundFault`. -/
def ErrCodeGlobalReplicationGroupNotFoundFault : String := "GlobalReplicationGroupNotFoundFault"

/-! ## Errors -/

/-- An error returned by the API client. -/
inductive ClientErr where
  /-- An `awserr.Error` with its code and message. -/
  | aws (code : String) (message : String)
  /-- Any error that is not an `awserr.Error`. -/
  | other (message : String)
deriving DecidableEq, Repr

/-- Go error values that occur in the two files. -/
inductive Err where
  /-- An error returned by the API client. -/
  | client (e : ClientErr)
  /-- The `resource.TimeoutError` of a wait. -/
  | timeout
  /-- The `resource.NotFoundError` of a wait. -/
  | notFound (retries : Nat)
  /-- The `resource.UnexpectedStateError` of a wait. -/
  | unexpectedState (state : String)
  /-- A `fmt.Errorf` without a wrapped error: the format and its arguments. -/
  | errorf (format : String) (args : List String)
  /-- A `fmt.Errorf` whose last verb `%w` wraps `inner`. -/
  | wrapf (format : String) (args : List String) (inner : Err)
deriving DecidableEq, Repr

/-- The Go function `strings.Contains`. -/
def stringsContains (s substr : String) : Bool :=
  substr.isEmpty || decide (1 < (s.splitOn substr).length)

/-- Modelled from the spec: `isAWSErr` is defined in the repository outside the
two source files.  It reports whether the error is, or wraps, an `awserr.Error`
with the given code whose message contains the given text. -/
def isAWSErr : Err → String → String → Bool
  | .client (.aws c m), code, message => decide (c = code) && stringsContains m message
  | .wrapf _ _ inner, code, message => isAWSErr inner code message
  | _, _, _ => false

/-! ## The client and the trace of requests -/

/-- A request dispatched to the ElastiCache API. -/
inductive Request where
  | create (input : CreateGlobalReplicationGroupInput)
  | describe (input : DescribeGlobalReplicationGroupsInput)
  | modify (input : ModifyGlobalReplicationGroupInput)
  | failover (input : FailoverGlobalReplicationGroupInput)
  | delete (input : DeleteGlobalReplicationGroupInput)
deriving DecidableEq, Repr

/-- The requests dispatched so far, oldest first. -/
abbrev Trace := List Request

/-- The client `*elasticache.ElastiCache`: each operation answers from the trace
of the earlier requests and its input.  The outputs of modify, failover and
delete are discarded by the code and carry no data here. -/
structure ElastiCache where
  CreateGlobalReplicationGroup :
    Trace → CreateGlobalReplicationGroupInput →
      Except ClientErr CreateGlobalReplicationGroupOutput
  DescribeGlobalReplicationGroups :
    Trace → DescribeGlobalReplicationGroupsInput →
      Except ClientErr DescribeGlobalReplicationGroupsOutput
  ModifyGlobalReplicationGroup : Trace → ModifyGlobalReplicationGroupInput → Except ClientErr Unit
  FailoverGlobalReplicationGroup : Trace → FailoverGlobalReplicationGroupInput → Except ClientErr Unit
  DeleteGlobalReplicationGroup : Trace → DeleteGlobalReplicationGroupInput → Except ClientErr Unit

/-! ## Resource data -/

/-- An element of the `global_node_groups` attribute. -/
structure NodeGroupEntry where
  global_node_group_id : String := ""
  slots : String := ""
deriving DecidableEq, Repr

/-- An element of the `members` attribute. -/
structure MemberEntry where
  automatic_failover : String := ""
  replication_group_id : String := ""
  replication_group_region : String := ""
  role : String := ""
  status : String := ""
deriving DecidableEq, Repr

/-- A value passed to `d.Set` or returned by `d.Get`, with the Go type it has at
run time, which is what a type assertion on the `interface{}` tests. -/
inductive Value where
  /-- A `string`. -/
  | str (s : String)
  /-- A `bool`. -/
  | bool (b : Bool)
  /-- A `[]map[string]interface{}` of node groups, as both reads build it for `Set`. -/
  | nodeGroups (l : List NodeGroupEntry)
  /-- A `[]map[string]interface{}` of members, as both reads build it for `Set`. -/
  | members (l : List MemberEntry)
  /-- The `[]interface{}` that `Get` returns for the list `global_node_groups`. -/
  | nodeGroupList (l : List NodeGroupEntry)
  /-- The `[]interface{}` that `Get` returns for the list `members`. -/
  | memberList (l : List MemberEntry)
deriving DecidableEq, Repr

/-- The attributes of the schema, with the Go zero values as defaults. -/
structure Attrs where
  arn : String := ""
  at_rest_encryption_enabled : Bool := false
  auth_token_enabled : Bool := false
  automatic_failover_enabled : Bool := false
  cache_node_type : String := ""
  cluster_enabled : Bool := false
  engine : String := ""
  engine_version : String := ""
  global_node_groups : List NodeGroupEntry := []
  global_replication_group_description : String := ""
  global_replication_group_id : String := ""
  global_replication_group_id_suffix : String := ""
  members : List MemberEntry := []
  primary_replication_group_id : String := ""
  status : String := ""
  transit_encryption_enabled : Bool := false
deriving DecidableEq, Repr

/-- Read an attribute by its key.  A list attribute comes back as a
`[]interface{}`, whatever slice type was passed to `Set`. -/
def Attrs.get (a : Attrs) (key : String) : Option Value :=
  if key = "arn" then some (.str a.arn)
  else if key = "at_rest_encryption_enabled" then some (.bool a.at_rest_encryption_enabled)
  else if key = "auth_token_enabled" then some (.bool a.auth_token_enabled)
  else if key = "automatic_failover_enabled" then some (.bool a.automatic_failover_enabled)
  else if key = "cache_node_type" then some (.str a.cache_node_type)
  else if key = "cluster_enabled" then some (.bool a.cluster_enabled)
  else if key = "engine" then some (.str a.engine)
  else if key = "engine_version" then some (.str a.engine_version)
  else if key = "global_node_groups" then some (.nodeGroupList a.global_node_groups)
  else if key = "global_replication_group_description" then
    some (.str a.global_replication_group_description)
  else if key = "global_replication_group_id" then some (.str a.global_replication_group_id)
  else if key = "global_replication_group_id_suffix" then
    some (.str a.global_replication_group_id_suffix)
  else if key = "members" then some (.memberList a.members)
  else if key = "primary_replication_group_id" then some (.str a.primary_replication_group_id)
  else if key = "status" then some (.str a.status)
  else if key = "transit_encryption_enabled" then some (.bool a.transit_encryption_enabled)
  else none

/-- Write an attribute by its key; a value of the wrong type is not written. -/
def Attrs.put (a : Attrs) (key : String) (v : Value) : Attrs :=
  match v with
  | .str s =>
    if key = "arn" then { a with arn := s }
    else if key = "cache_node_type" then { a with cache_node_type := s }
    else if key = "engine" then { a with engine := s }
    else if key = "engine_version" then { a with engine_version := s }
    else if key = "global_replication_group_description" then
      { a with global_replication_group_description := s }
    else if key = "global_replication_group_id" then { a with global_replication_group_id := s }
    else if key = "global_replication_group_id_suffix" then
      { a with global_replication_group_id_suffix := s }
    else if key = "primary_replication_group_id" then
      { a with primary_replication_group_id := s }
    else if key = "status" then { a with status := s }
    else a
  | .bool b =>
    if key = "at_rest_encryption_enabled" then { a with at_rest_encryption_enabled := b }
    else if key = "auth_token_enabled" then { a with auth_token_enabled := b }
    else if key = "automatic_failover_enabled" then { a with automatic_failover_enabled := b }
    else if key = "cluster_enabled" then { a with cluster_enabled := b }
    else if key = "transit_encryption_enabled" then { a with transit_encryption_enabled := b }
    else a
  | .nodeGroups l =>
    if key = "global_node_groups" then { a with global_node_groups := l } else a
  | .members l =>
    if key = "members" then { a with members := l } else a
  | .nodeGroupList l =>
    if key = "global_node_groups" then { a with global_node_groups := l } else a
  | .memberList l =>
    if key = "members" then { a with members := l } else a

/-- The timeouts of a `schema.ResourceTimeout` block, in seconds; `none` is unset. -/
structure ResourceTimeout where
  Create : Option Nat := none
  Delete : Option Nat := none
  Update : Option Nat := none
deriving DecidableEq, Repr

/-- The keys `schema.TimeoutCreate`, `schema.TimeoutDelete`, `schema.TimeoutUpdate`. -/
inductive TimeoutKey where
  | TimeoutCreate
  | TimeoutDelete
  | TimeoutUpdate
deriving DecidableEq, Repr

def ResourceTimeout.get (t : ResourceTimeout) : TimeoutKey → Option Nat
  | .TimeoutCreate => t.Create
  | .TimeoutDelete => t.Delete
  | .TimeoutUpdate => t.Update

def Second : Nat := 1

def Minute : Nat := 60 * Second

/-- The `Timeouts` block of `resourceAwsElasticacheGlobalReplicationGroup`: the defaults. -/
def resourceTimeouts : ResourceTimeout :=
  { Create := some (60 * Minute), Delete := some (40 * Minute), Update := some (40 * Minute) }

/-- The keys of the schema of `resourceAwsElasticacheGlobalReplicationGroup`. -/
def resourceSchemaKeys : List String :=
  ["arn", "at_rest_encryption_enabled", "auth_token_enabled", "automatic_failover_enabled",
   "cache_node_type", "cluster_enabled", "engine", "engine_version", "global_node_groups",
   "global_replication_group_description", "global_replication_group_id",
   "global_replication_group_id_suffix", "members", "primary_replication_group_id", "status",
   "transit_encryption_enabled"]

/-- The keys of the schema of `dataSourceAwsElasticacheGlobalReplicationGroup`. -/
def dataSourceSchemaKeys : List String :=
  ["arn", "at_rest_encryption_enabled", "auth_token_enabled", "cache_node_type",
   "cluster_enabled", "engine", "engine_version", "global_node_groups",
   "global_replication_group_description", "global_replication_group_id", "members", "status",
   "transit_encryption_enabled"]

/-- Modelled from the spec: the type `schema.ResourceData` of the Terraform SDK,
the local key/value configuration model, which is not in the source files.  Its
methods below follow the SDK: `Get` returns the current value of a key, the
zero value for an unset one and a `[]interface{}` for a list, `Set` overwrites
it, `HasChange` compares it with the prior state, `Timeout` returns the configured timeout of an operation or its
default. -/
structure ResourceData where
  /-- The resource ID; the empty string removes the resource from state. -/
  id : String := ""
  /-- The keys of the schema the data belongs to. -/
  schemaKeys : List String := resourceSchemaKeys
  /-- The attribute values of the prior state. -/
  state : Attrs := {}
  /-- The current attribute values: the planned values and what `Set` wrote. -/
  attrs : Attrs := {}
  /-- The timeouts the user configured. -/
  timeouts : ResourceTimeout := {}
deriving DecidableEq, Repr

def ResourceData.Id (d : ResourceData) : String := d.id

def ResourceData.SetId (d : ResourceData) (v : String) : ResourceData := { d with id := v }

/-- The method `d.Set`.  A key outside the schema makes `Set` return an error,
which both files ignore, and nothing is written.  A nil pointer is written as the
zero value of its type, which is what the caller passes here. -/
def ResourceData.Set (d : ResourceData) (key : String) (v : Value) : ResourceData :=
  if key ∈ d.schemaKeys then { d with attrs := d.attrs.put key v } else d

def ResourceData.Get (d : ResourceData) (key : String) : Option Value := d.attrs.get key

/-- The expression `d.Get(key).(string)`. -/
def ResourceData.GetString (d : ResourceData) (key : String) : String :=
  match d.Get key with
  | some (.str s) => s
  | _ => ""

/-- The expression `d.Get(key).(bool)`. -/
def ResourceData.GetBool (d : ResourceData) (key : String) : Bool :=
  match d.Get key with
  | some (.bool b) => b
  | _ => false

/-- The expression `d.Get(key).([]map[string]interface{})` of Update, a type
assertion in its single-value form: the slice when the value that `Get` returned
is a `[]map[string]interface{}`, and `none`, a run-time panic, for a value of any
other type. -/
def ResourceData.GetMembers (d : ResourceData) (key : String) : Option (List MemberEntry) :=
  match d.Get key with
  | some (.members l) => some l
  | _ => none

/-- The message of the run-time panic of the failed type assertion of Update. -/
def assertionPanic : String :=
  "interface conversion: interface \x7b\x7d is []interface \x7b\x7d, " ++
    "not []map[string]interface \x7b\x7d"

/-- The method `d.GetOk` on a string attribute: the value, and whether it is not
the zero value. -/
def ResourceData.GetOkString (d : ResourceData) (key : String) : String × Bool :=
  (d.GetString key, decide (d.GetString key ≠ ""))

/-- The method `d.HasChange`: the prior and the current value differ. -/
def ResourceData.HasChange (d : ResourceData) (key : String) : Bool :=
  decide (d.state.get key ≠ d.attrs.get key)

/-- The method `d.Timeout`: the configured value, else the default of the
resource, else the 20 minutes of the SDK. -/
def ResourceData.Timeout (d : ResourceData) (key : TimeoutKey) : Nat :=
  match d.timeouts.get key with
  | some t => t
  | none =>
    match resourceTimeouts.get key with
    | some t => t
    | none => 20 * Minute

/-- How a block of a function ends: it leaves an `error` result, nil when the
function goes on after the block, or it panics. -/
inductive Ending where
  | returned (err : Option Err)
  | panicked (message : String)
deriving DecidableEq, Repr

/-- What a CRUD function leaves behind: its `error` result, the resource data it
mutated through the pointer, the trace of requests, and the message of the panic
when it panicked instead of returning (then `err` is nil and means nothing). -/
structure Outcome where
  err : Option Err
  d : ResourceData
  trace : Trace
  panic : Option String := none
deriving DecidableEq, Repr

/-! ## Describing the group -/

/-- The function `getGlobalReplicationGroup`: the group, or nil when the list is
empty or its first group has another ID, or the error of the describe call. -/
def getGlobalReplicationGroup (conn : ElastiCache) (id : String) (tr : Trace) :
    Except Err (Option GlobalReplicationGroup) × Trace :=
  let req : DescribeGlobalReplicationGroupsInput :=
    { GlobalReplicationGroupId := some id, ShowMemberInfo := some true }
  match conn.DescribeGlobalReplicationGroups tr req with
  | .error err => (.error (.client err), tr ++ [.describe req])
  | .ok res =>
    match res.GlobalReplicationGroups with
    | [] => (.ok none, tr ++ [.describe req])
    | group :: _ =>
      if StringValue group.GlobalReplicationGroupId ≠ id then (.ok none, tr ++ [.describe req])
      else (.ok (some group), tr ++ [.describe req])

/-- The three results `(interface{}, string, error)` of a `resource.StateRefreshFunc`. -/
structure RefreshResult where
  result : Option GlobalReplicationGroup
  state : String
  err : Option Err
deriving DecidableEq, Repr

/-- A `resource.StateRefreshFunc`, from the trace before the call to its results
and the trace after it. -/
abbrev StateRefreshFunc := Trace → RefreshResult × Trace

/-- The function `globalReplicationGroupStateRefreshFunc`. -/
def globalReplicationGroupStateRefreshFunc (conn : ElastiCache) (id : String) :
    StateRefreshFunc := fun tr =>
  match getGlobalReplicationGroup conn id tr with
  | (.error err, tr) => ({ result := none, state := "", err := some err }, tr)
  | (.ok none, tr) => ({ result := none, state := "", err := none }, tr)
  | (.ok (some group), tr) =>
    ({ result := some group, state := StringValue group.Status, err := none }, tr)

/-! ## Waiting -/

/-- The fields of `resource.StateChangeConf` that the four waits set, apart from
`Refresh`, which is passed along. -/
structure StateChangeConf where
  Pending : List String
  Target : List String
  Timeout : Nat
  MinTimeout : Nat
  Delay : Nat
deriving DecidableEq, Repr

/-- The default of `NotFoundChecks` in `resource.StateChangeConf`. -/
def NotFoundChecks : Nat := 20

/-- Modelled from the spec: the number of polls of a wait before its timeout
elapses.  The polling loop belongs to the Terraform SDK and is not in the source
files.  A refresh takes no time, the first poll comes after `Delay`, the polls
are `MinTimeout` apart, and a poll is made only before `Timeout` has elapsed. -/
def StateChangeConf.polls (conf : StateChangeConf) : Nat :=
  if conf.Timeout ≤ conf.Delay then 0
  else (conf.Timeout - conf.Delay + conf.MinTimeout - 1) / conf.MinTimeout

/-- Modelled from the spec: the polling loop of `WaitForState`, which belongs to
the Terraform SDK and is not in the source files.  It polls the status until it
reaches one of the target values or the timeout elapses.  A refresh error ends
the wait with that error.  With an empty target set the wait is for absence and
succeeds when the refresh reports nothing found; otherwise more than
`NotFoundChecks` polls in a row that find nothing end it with a not-found error.
A status that is no target and not pending ends it with an unexpected-state
error when the pending set is non-empty.  `fuel` is the number of polls left
and `notfoundTick` the number of polls in a row that found nothing. -/
def waitLoop (conf : StateChangeConf) (refresh : StateRefreshFunc) :
    (fuel : Nat) → (notfoundTick : Nat) → Trace → Option Err × Trace
  | 0, _, tr => (some Err.timeout, tr)
  | fuel + 1, notfoundTick, tr =>
    match refresh tr with
    | (r, tr) =>
      match r.err with
      | some err => (some err, tr)
      | none =>
        match r.result with
        | none =>
          if conf.Target.length = 0 then (none, tr)
          else if notfoundTick + 1 > NotFoundChecks then
            (some (Err.notFound (notfoundTick + 1)), tr)
          else waitLoop conf refresh fuel (notfoundTick + 1) tr
        | some _ =>
          if r.state ∈ conf.Target then (none, tr)
          else if r.state ∈ conf.Pending then waitLoop conf refresh fuel 0 tr
          else if conf.Pending.length > 0 then (some (Err.unexpectedState r.state), tr)
          else waitLoop conf refresh fuel 0 tr

/-- Modelled from the spec: the method `WaitForState` of
`resource.StateChangeConf`, of which only the `error` result is kept, as the
four waits do. -/
def StateChangeConf.WaitForState (conf : StateChangeConf) (refresh : StateRefreshFunc)
    (tr : Trace) : Option Err × Trace :=
  waitLoop conf refresh conf.polls 0 tr

/-- The `StateChangeConf` of `waitForGlobalReplicationGroupCreation`. -/
def creationConf (timeout : Nat) : StateChangeConf :=
  { Pending := ["creating"]
    Target := ["available", "primary-only"]
    Timeout := timeout
    MinTimeout := 10 * Second
    Delay := 30 * Second }

/-- The `StateChangeConf` of `waitForGlobalReplicationGroupModification`. -/
def modificationConf (timeout : Nat) : StateChangeConf :=
  { Pending := ["modifying"]
    Target := ["available", "primary-only"]
    Timeout := timeout
    MinTimeout := 10 * Second
    Delay := 30 * Second }

/-- The `StateChangeConf` of `waitForGlobalReplicationGroupFailover`. -/
def failoverConf (timeout : Nat) : StateChangeConf :=
  { Pending := ["modifying"]
    Target := ["available"]
    Timeout := timeout
    MinTimeout := 10 * Second
    Delay := 30 * Second }

/-- The `StateChangeConf` of `waitForGlobalReplicationGroupDeletion`. -/
def deletionConf (timeout : Nat) : StateChangeConf :=
  { Pending := ["available", "creating", "deleting", "incompatible-network",
      "incompatible-parameters", "primary-only", "restore-failed", "snapshotting"]
    Target := []
    Timeout := timeout
    MinTimeout := 10 * Second
    Delay := 30 * Second }

def waitForGlobalReplicationGroupCreation (conn : ElastiCache) (id : String) (timeout : Nat)
    (tr : Trace) : Option Err × Trace :=
  (creationConf timeout).WaitForState (globalReplicationGroupStateRefreshFunc conn id) tr

def waitForGlobalReplicationGroupModification (conn : ElastiCache) (id : String) (timeout : Nat)
    (tr : Trace) : Option Err × Trace :=
  (modificationConf timeout).WaitForState (globalReplicationGroupStateRefreshFunc conn id) tr

def waitForGlobalReplicationGroupFailover (conn : ElastiCache) (id : String) (timeout : Nat)
    (tr : Trace) : Option Err × Trace :=
  (failoverConf timeout).WaitForState (globalReplicationGroupStateRefreshFunc conn id) tr

def waitForGlobalReplicationGroupDeletion (conn : ElastiCache) (id : String) (timeout : Nat)
    (tr : Trace) : Option Err × Trace :=
  (deletionConf timeout).WaitForState (globalReplicationGroupStateRefreshFunc conn id) tr

/-! ## Read -/

/-- The element of `global_node_groups` built from an API node group. -/
def flattenNodeGroup (g : GlobalNodeGroup) : NodeGroupEntry :=
  { global_node_group_id := StringValue g.GlobalNodeGroupId
    slots := StringValue g.Slots }

/-- The element of `members` built from an API member. -/
def flattenMember (m : GlobalReplicationGroupMember) : MemberEntry :=
  { automatic_failover := StringValue m.AutomaticFailover
    replication_group_id := StringValue m.ReplicationGroupId
    replication_group_region := StringValue m.ReplicationGroupRegion
    role := StringValue m.Role
    status := StringValue m.Status }

/-- The loop `for _, g := range group.GlobalNodeGroups` of both reads. -/
def nodeGroupsLoop : List GlobalNodeGroup → List NodeGroupEntry → List NodeGroupEntry
  | [], groups => groups
  | g :: rest, groups => nodeGroupsLoop rest (groups ++ [flattenNodeGroup g])

/-- The loop `for _, m := range group.Members` of both reads: it appends one
element per member and sets `primary_replication_group_id` at every member whose
role is PRIMARY. -/
def membersLoop :
    List GlobalReplicationGroupMember → List MemberEntry → ResourceData →
      List MemberEntry × ResourceData
  | [], members, d => (members, d)
  | m :: rest, members, d =>
    let members := members ++ [flattenMember m]
    let d :=
      if StringValue m.Role = "PRIMARY" then
        d.Set "primary_replication_group_id" (.str (StringValue m.ReplicationGroupId))
      else d
    membersLoop rest members d

/-- The two blocks `if group.GlobalNodeGroups != nil` and `if group.Members != nil`
that end both reads. -/
def setNestedAttributes (group : GlobalReplicationGroup) (d : ResourceData) : ResourceData :=
  let d :=
    match group.GlobalNodeGroups with
    | none => d
    | some gs => d.Set "global_node_groups" (.nodeGroups (nodeGroupsLoop gs []))
  match group.Members with
  | none => d
  | some ms =>
    match membersLoop ms [] d with
    | (members, d) => d.Set "members" (.members members)

/-- The function `resourceAwsElasticacheGlobalReplicationGroupRead`. -/
def resourceAwsElasticacheGlobalReplicationGroupRead (d : ResourceData) (conn : ElastiCache)
    (tr : Trace) : Outcome :=
  match getGlobalReplicationGroup conn d.Id tr with
  | (.error err, tr) =>
    if isAWSErr err ErrCodeGlobalReplicationGroupNotFoundFault "" then
      { err := none, d := d.SetId "", trace := tr }
    else { err := some err, d := d, trace := tr }
  | (.ok none, tr) => { err := none, d := d.SetId "", trace := tr }
  | (.ok (some group), tr) =>
    if StringValue group.Status = "deleting" then
      { err := none, d := d.SetId "", trace := tr }
    else
      let d := d.Set "arn" (.str (StringValue group.ARN))
      let d := d.Set "at_rest_encryption_enabled" (.bool (BoolValue group.AtRestEncryptionEnabled))
      let d := d.Set "auth_token_enabled" (.bool (BoolValue group.AuthTokenEnabled))
      let d := d.Set "cache_node_type" (.str (StringValue group.CacheNodeType))
      let d := d.Set "cluster_enabled" (.bool (BoolValue group.ClusterEnabled))
      let d := d.Set "global_replication_group_description"
        (.str (StringValue group.GlobalReplicationGroupDescription))
      let d := d.Set "global_replication_group_id" (.str (StringValue group.GlobalReplicationGroupId))
      let d := d.Set "engine" (.str (StringValue group.Engine))
      let d := d.Set "engine_version" (.str (StringValue group.EngineVersion))
      let d := d.Set "status" (.str (StringValue group.Status))
      let d := d.Set "transit_encryption_enabled" (.bool (BoolValue group.TransitEncryptionEnabled))
      { err := none, d := setNestedAttributes group d, trace := tr }

/-- The function `dataSourceAwsElasticacheGlobalReplicationGroupRead`. -/
def dataSourceAwsElasticacheGlobalReplicationGroupRead (d : ResourceData) (conn : ElastiCache)
    (tr : Trace) : Outcome :=
  let groupID := d.GetString "global_replication_group_id"
  match getGlobalReplicationGroup conn groupID tr with
  | (.error err, tr) =>
    if isAWSErr err ErrCodeGlobalReplicationGroupNotFoundFault "" then
      { err := some (.errorf "ElastiCache Global Replication Group (%s) not found" [groupID])
        d := d, trace := tr }
    else
      { err := some (.wrapf "reading ElastiCache Global Replication Group (%s): %w" [groupID] err)
        d := d, trace := tr }
  | (.ok none, tr) =>
    { err := some (.errorf "reading ElastiCache Global Replication Group (%s): empty output"
        [groupID])
      d := d, trace := tr }
  | (.ok (some group), tr) =>
    let d := d.SetId (StringValue group.GlobalReplicationGroupId)
    let d := d.Set "arn" (.str (StringValue group.ARN))
    let d := d.Set "at_rest_encryption_enabled" (.bool (BoolValue group.AtRestEncryptionEnabled))
    let d := d.Set "auth_token_enabled" (.bool (BoolValue group.AuthTokenEnabled))
    let d := d.Set "cache_node_type" (.str (StringValue group.CacheNodeType))
    let d := d.Set "cluster_enabled" (.bool (BoolValue group.ClusterEnabled))
    let d := d.Set "global_replication_group_description"
      (.str (StringValue group.GlobalReplicationGroupDescription))
    let d := d.Set "engine" (.str (StringValue group.Engine))
    let d := d.Set "engine_version" (.str (StringValue group.EngineVersion))
    let d := d.Set "status" (.str (StringValue group.Status))
    let d := d.Set "transit_encryption_enabled" (.bool (BoolValue group.TransitEncryptionEnabled))
    { err := none, d := setNestedAttributes group d, trace := tr }

/-! ## Create -/

/-- The request that `resourceAwsElasticacheGlobalReplicationGroupCreate` builds. -/
def createInput (d : ResourceData) : CreateGlobalReplicationGroupInput :=
  let req : CreateGlobalReplicationGroupInput := {}
  let req :=
    match d.GetOkString "global_replication_group_description" with
    | (v, true) => { req with GlobalReplicationGroupDescription := some v }
    | (_, false) => req
  let req :=
    match d.GetOkString "global_replication_group_id_suffix" with
    | (v, true) => { req with GlobalReplicationGroupIdSuffix := some v }
    | (_, false) => req
  match d.GetOkString "primary_replication_group_id" with
  | (v, true) => { req with PrimaryReplicationGroupId := some v }
  | (_, false) => req

/-- The function `resourceAwsElasticacheGlobalReplicationGroupCreate`. -/
def resourceAwsElasticacheGlobalReplicationGroupCreate (d : ResourceData) (conn : ElastiCache)
    (tr : Trace) : Outcome :=
  let req := createInput d
  match conn.CreateGlobalReplicationGroup tr req with
  | .error err =>
    { err := some (.wrapf "creating ElastiCache Global Replication Group: %w" [] (.client err))
      d := d, trace := tr ++ [.create req] }
  | .ok res =>
    let d := d.SetId (StringValue res.GlobalReplicationGroup.GlobalReplicationGroupId)
    match waitForGlobalReplicationGroupCreation conn d.Id (d.Timeout .TimeoutCreate)
        (tr ++ [.create req]) with
    | (some err, tr) =>
      { err := some (.wrapf
          "waiting for ElastiCache Global Replication Group (%s) creation: %w" [d.Id] err)
        d := d, trace := tr }
    | (none, tr) => resourceAwsElasticacheGlobalReplicationGroupRead d conn tr

/-! ## Update -/

/-- The first part of `resourceAwsElasticacheGlobalReplicationGroupUpdate`: the
modify request and the flag `modifyRequired`. -/
def modifyInput (d : ResourceData) : ModifyGlobalReplicationGroupInput × Bool :=
  let req : ModifyGlobalReplicationGroupInput :=
    { ApplyImmediately := some true, GlobalReplicationGroupId := some d.Id }
  let modifyRequired := false
  let (req, modifyRequired) :=
    if d.HasChange "automatic_failover_enabled" then
      ({ req with AutomaticFailoverEnabled := some (d.GetBool "automatic_failover_enabled") }, true)
    else (req, modifyRequired)
  let (req, modifyRequired) :=
    if d.HasChange "cache_node_type" then
      ({ req with CacheNodeType := some (d.GetString "cache_node_type") }, true)
    else (req, modifyRequired)
  let (req, modifyRequired) :=
    if d.HasChange "global_replication_group_description" then
      let v := d.GetString "global_replication_group_description"
      ({ req with GlobalReplicationGroupDescription := some v }, true)
    else (req, modifyRequired)
  let (req, modifyRequired) :=
    if d.HasChange "engine_version" then
      ({ req with EngineVersion := some (d.GetString "engine_version") }, true)
    else (req, modifyRequired)
  (req, modifyRequired)

/-- The block `if modifyRequired` of Update: the modify request and its wait.
The result is the error Update returns from this block, nil when it goes on. -/
def modifyStep (d : ResourceData) (conn : ElastiCache) (tr : Trace) : Option Err × Trace :=
  match modifyInput d with
  | (req, true) =>
    match conn.ModifyGlobalReplicationGroup tr req with
    | .error err =>
      (some (.wrapf "modifying ElastiCache Global Replication Group (%s): %w" [d.Id]
        (.client err)), tr ++ [.modify req])
    | .ok _ =>
      match waitForGlobalReplicationGroupModification conn d.Id (d.Timeout .TimeoutUpdate)
          (tr ++ [.modify req]) with
      | (some err, tr) =>
        (some (.wrapf
          "waiting for ElastiCache Global Replication Group (%s) to finish modifications: %w"
          [d.Id] err), tr)
      | (none, tr) => (none, tr)
  | (_, false) => (none, tr)

/-- The loop `for _, m := range members` of Update: `failoverID` and
`failoverRegion` of the first member that has the target ID, role SECONDARY and
status associated; both empty when there is none. -/
def findFailover (targetPrimaryID : String) : List MemberEntry → String × String
  | [] => ("", "")
  | m :: rest =>
    if m.replication_group_id = targetPrimaryID ∧ m.role = "SECONDARY" ∧
        m.status = "associated" then
      (m.replication_group_id, m.replication_group_region)
    else findFailover targetPrimaryID rest

/-- The error of Update for a new primary that cannot be failed over to. -/
def failoverMemberError (targetPrimaryID id : String) : Err :=
  .errorf ("new primary replication group %s for ElastiCache Global Replication Group (%s) " ++
    "must already be a member with role SECONDARY and state associated") [targetPrimaryID, id]

/-- The block `if d.HasChange("primary_replication_group_id")` of Update: the
type assertion on the members list, the loop, the guard, the failover request
and its wait.  The block ends with the error Update returns from it, with nil
when Update goes on, or with the panic of the type assertion. -/
def failoverStep (d : ResourceData) (conn : ElastiCache) (tr : Trace) : Ending × Trace :=
  if d.HasChange "primary_replication_group_id" then
    let targetPrimaryID := d.GetString "primary_replication_group_id"
    match d.GetMembers "members" with
    | none => (.panicked assertionPanic, tr)
    | some members =>
      match findFailover targetPrimaryID members with
      | (failoverID, failoverRegion) =>
        if failoverID = "" ∨ failoverRegion = "" then
          (.returned (some (failoverMemberError targetPrimaryID d.Id)), tr)
        else
          let failoverReq : FailoverGlobalReplicationGroupInput :=
            { GlobalReplicationGroupId := some d.Id
              PrimaryRegion := some failoverRegion
              PrimaryReplicationGroupId := some failoverID }
          match conn.FailoverGlobalReplicationGroup tr failoverReq with
          | .error err =>
            (.returned (some (.wrapf "failing over ElastiCache Global Replication Group (%s): %w"
              [d.Id] (.client err))), tr ++ [.failover failoverReq])
          | .ok _ =>
            match waitForGlobalReplicationGroupFailover conn d.Id (d.Timeout .TimeoutUpdate)
                (tr ++ [.failover failoverReq]) with
            | (some err, tr) =>
              (.returned (some (.wrapf
                "waiting for ElastiCache Global Replication Group (%s) to finish failing over: %w"
                [d.Id] err)), tr)
            | (none, tr) => (.returned none, tr)
  else (.returned none, tr)

/-- The function `resourceAwsElasticacheGlobalReplicationGroupUpdate`. -/
def resourceAwsElasticacheGlobalReplicationGroupUpdate (d : ResourceData) (conn : ElastiCache)
    (tr : Trace) : Outcome :=
  match modifyStep d conn tr with
  | (some err, tr) => { err := some err, d := d, trace := tr }
  | (none, tr) =>
    match failoverStep d conn tr with
    | (.panicked message, tr) => { err := none, d := d, trace := tr, panic := some message }
    | (.returned (some err), tr) => { err := some err, d := d, trace := tr }
    | (.returned none, tr) => resourceAwsElasticacheGlobalReplicationGroupRead d conn tr

/-! ## Delete -/

/-- The request that `resourceAwsElasticacheGlobalReplicationGroupDelete` builds. -/
def deleteInput (d : ResourceData) : DeleteGlobalReplicationGroupInput :=
  { GlobalReplicationGroupId := some d.Id
    RetainPrimaryReplicationGroup := some true }

/-- The function `resourceAwsElasticacheGlobalReplicationGroupDelete`. -/
def resourceAwsElasticacheGlobalReplicationGroupDelete (d : ResourceData) (conn : ElastiCache)
    (tr : Trace) : Outcome :=
  let req := deleteInput d
  match conn.DeleteGlobalReplicationGroup tr req with
  | .error err =>
    if isAWSErr (.client err) ErrCodeGlobalReplicationGroupNotFoundFault "" then
      { err := none, d := d, trace := tr ++ [.delete req] }
    else
      { err := some (.wrapf "deleting Global Replication Group (%s): %w" [d.Id] (.client err))
        d := d, trace := tr ++ [.delete req] }
  | .ok _ =>
    match waitForGlobalReplicationGroupDeletion conn d.Id (40 * Minute)
        (tr ++ [.delete req]) with
    | (some err, tr) =>
      { err := some (.wrapf "waiting for Global Replication Group (%s) to be deleted: %w"
          [d.Id] err)
        d := d, trace := tr }
    | (none, tr) => { err := none, d := d, trace := tr }

/-! ## Predicates on traces -/

/-- The request is a FailoverGlobalReplicationGroup request. -/
def Request.isFailover : Request → Bool
  | .failover _ => true
  | _ => false

/-- The request is a ModifyGlobalReplicationGroup request. -/
def Request.isModify : Request → Bool
  | .modify _ => true
  | _ => false

/-- The request is a DeleteGlobalReplicationGroup request. -/
def Request.isDelete : Request → Bool
  | .delete _ => true
  | _ => false

/-- The request is a DescribeGlobalReplicationGroups request, which is what a
poll dispatches. -/
def Request.isDescribe : Request → Bool
  | .describe _ => true
  | _ => false

/-! ## Definitions used in the statements -/

/-- The describe request that `getGlobalReplicationGroup` dispatches. -/
def describeInput (id : String) : DescribeGlobalReplicationGroupsInput :=
  { GlobalReplicationGroupId := some id, ShowMemberInfo := some true }

/-- A trace that extends `tr` by polls only. -/
def PollsAfter (tr tr' : Trace) : Prop :=
  ∃ polls : Trace, tr' = tr ++ polls ∧ ∀ r ∈ polls, r.isDescribe = true

/-- The member's role, nil as the empty string, is PRIMARY. -/
def isPrimary (m : GlobalReplicationGroupMember) : Bool :=
  decide (StringValue m.Role = "PRIMARY")

/-- The value of `primary_replication_group_id` after the members loop: the ID
of the last PRIMARY member, and the value before the loop when there is none. -/
def primaryAfter (before : String) (ms : List GlobalReplicationGroupMember) : String :=
  match (ms.filter isPrimary).getLast? with
  | some m => StringValue m.ReplicationGroupId
  | none => before

/-- The eleven scalar attributes that the resource read writes before the nested ones. -/
def resourceScalars (group : GlobalReplicationGroup) (d : ResourceData) : ResourceData :=
  ((((((((((d.Set "arn" (.str (StringValue group.ARN))).Set
    "at_rest_encryption_enabled" (.bool (BoolValue group.AtRestEncryptionEnabled))).Set
    "auth_token_enabled" (.bool (BoolValue group.AuthTokenEnabled))).Set
    "cache_node_type" (.str (StringValue group.CacheNodeType))).Set
    "cluster_enabled" (.bool (BoolValue group.ClusterEnabled))).Set
    "global_replication_group_description"
      (.str (StringValue group.GlobalReplicationGroupDescription))).Set
    "global_replication_group_id" (.str (StringValue group.GlobalReplicationGroupId))).Set
    "engine" (.str (StringValue group.Engine))).Set
    "engine_version" (.str (StringValue group.EngineVersion))).Set
    "status" (.str (StringValue group.Status))).Set
    "transit_encryption_enabled" (.bool (BoolValue group.TransitEncryptionEnabled))

/-- The ten scalar attributes that the data source read writes after the ID. -/
def dataSourceScalars (group : GlobalReplicationGroup) (d : ResourceData) : ResourceData :=
  (((((((((d.Set "arn" (.str (StringValue group.ARN))).Set
    "at_rest_encryption_enabled" (.bool (BoolValue group.AtRestEncryptionEnabled))).Set
    "auth_token_enabled" (.bool (BoolValue group.AuthTokenEnabled))).Set
    "cache_node_type" (.str (StringValue group.CacheNodeType))).Set
    "cluster_enabled" (.bool (BoolValue group.ClusterEnabled))).Set
    "global_replication_group_description"
      (.str (StringValue group.GlobalReplicationGroupDescription))).Set
    "engine" (.str (StringValue group.Engine))).Set
    "engine_version" (.str (StringValue group.EngineVersion))).Set
    "status" (.str (StringValue group.Status))).Set
    "transit_encryption_enabled" (.bool (BoolValue group.TransitEncryptionEnabled))

/-- The requests that a call dispatched: what it appended to the trace it started from. -/
def sentAfter (before after : Trace) : Trace := after.drop before.length

/-! ## Example worlds -/

/-- A client for examples: every mutation succeeds and a describe call is
answered from the number of requests dispatched before it. -/
def exampleConn (describe : Nat → Except ClientErr DescribeGlobalReplicationGroupsOutput) :
    ElastiCache :=
  { CreateGlobalReplicationGroup := fun _ _ =>
      .ok { GlobalReplicationGroup := { GlobalReplicationGroupId := some "grg-1" } }
    DescribeGlobalReplicationGroups := fun tr _ => describe tr.length
    ModifyGlobalReplicationGroup := fun _ _ => .ok ()
    FailoverGlobalReplicationGroup := fun _ _ => .ok ()
    DeleteGlobalReplicationGroup := fun _ _ => .ok () }

/-- A client for examples: every mutation fails with the given error and a
describe call is answered from the number of requests dispatched before it. -/
def failingConn (e : ClientErr)
    (describe : Nat → Except ClientErr DescribeGlobalReplicationGroupsOutput) : ElastiCache :=
  { CreateGlobalReplicationGroup := fun _ _ => .error e
    DescribeGlobalReplicationGroups := fun tr _ => describe tr.length
    ModifyGlobalReplicationGroup := fun _ _ => .error e
    FailoverGlobalReplicationGroup := fun _ _ => .error e
    DeleteGlobalReplicationGroup := fun _ _ => .error e }

/-- An example member: the replication group rg-a in us-east-1 with the given role. -/
def memberA (role : String) : GlobalReplicationGroupMember :=
  { AutomaticFailover := some "enabled"
    ReplicationGroupId := some "rg-a"
    ReplicationGroupRegion := some "us-east-1"
    Role := some role
    Status := some "associated" }

/-- An example member: the replication group rg-b with the given role and region. -/
def memberB (role : String) (region : Option String) : GlobalReplicationGroupMember :=
  { ReplicationGroupId := some "rg-b"
    ReplicationGroupRegion := region
    Role := some role
    Status := some "associated" }

/-- An example group grg-1 with the given status and members. -/
def exampleGroup (status : String) (ms : List GlobalReplicationGroupMember) :
    GlobalReplicationGroup :=
  { GlobalReplicationGroupId := some "grg-1", Status := some status, Members := some ms }

/-- A describe script: always the group grg-1 with the given status and members. -/
def always (status : String) (ms : List GlobalReplicationGroupMember) :
    Nat → Except ClientErr DescribeGlobalReplicationGroupsOutput :=
  fun _ => .ok { GlobalReplicationGroups := [exampleGroup status ms] }

/-- A describe script: the group grg-1 is deleting while fewer than `n` requests
were dispatched, and gone afterwards. -/
def goneAfter (n : Nat) : Nat → Except ClientErr DescribeGlobalReplicationGroupsOutput :=
  fun k =>
    if k < n then .ok { GlobalReplicationGroups := [exampleGroup "deleting" [memberA "PRIMARY"]] }
    else .ok { GlobalReplicationGroups := [] }

/-- Example data of the resource grg-1 whose state holds rg-a as primary. -/
def exampleData : ResourceData :=
  { id := "grg-1"
    state := { primary_replication_group_id := "rg-a" }
    attrs := { primary_replication_group_id := "rg-a" } }

/-- Example data of the data source, asked for grg-1. -/
def exampleDataSource : ResourceData :=
  { schemaKeys := dataSourceSchemaKeys
    attrs := { global_replication_group_id := "grg-1" } }

/-- Example data of the resource grg-1 in an Update that moves the primary from
rg-a to the secondary rg-b, whose region in state is the given one. -/
def exampleFailoverData (region : Option String) : ResourceData :=
  { id := "grg-1"
    state :=
      { primary_replication_group_id := "rg-a"
        members := [flattenMember (memberA "PRIMARY"), flattenMember (memberB "SECONDARY" region)] }
    attrs :=
      { primary_replication_group_id := "rg-b"
        members := [flattenMember (memberA "PRIMARY"), flattenMember (memberB "SECONDARY" region)] } }

/-- Example data of the resource grg-1 in an Update that moves the primary from
rg-a to rg-c, which is no member of the group. -/
def exampleUnknownPrimaryData : ResourceData :=
  { id := "grg-1"
    state :=
      { primary_replication_group_id := "rg-a"
        members := [flattenMember (memberA "PRIMARY"),
          flattenMember (memberB "SECONDARY" (some "us-west-2"))] }
    attrs :=
      { primary_replication_group_id := "rg-c"
        members := [flattenMember (memberA "PRIMARY"),
          flattenMember (memberB "SECONDARY" (some "us-west-2"))] } }

/-- Example data of the resource grg-1 in an Update that changes the node type
and moves the primary from rg-a to the secondary rg-b in us-west-2. -/
def exampleModifyData : ResourceData :=
  { id := "grg-1"
    state :=
      { cache_node_type := "cache.r5.large"
        primary_replication_group_id := "rg-a"
        members := [flattenMember (memberA "PRIMARY"),
          flattenMember (memberB "SECONDARY" (some "us-west-2"))] }
    attrs :=
      { cache_node_type := "cache.r6g.large"
        primary_replication_group_id := "rg-b"
        members := [flattenMember (memberA "PRIMARY"),
          flattenMember (memberB "SECONDARY" (some "us-west-2"))] } }

/-- Example data of the resource grg-1 with a delete timeout of one minute configured. -/
def exampleShortDelete : ResourceData :=
  { id := "grg-1", timeouts := { Delete := some (1 * Minute) } }

/-! ## Lemmas -/

theorem getGlobalReplicationGroup_trace (conn : ElastiCache) (id : String) (tr : Trace) :
    (getGlobalReplicationGroup conn id tr).2 = tr ++ [.describe (describeInput id)] := by
  unfold getGlobalReplicationGroup describeInput
  dsimp only
  split
  · rfl
  · split
    · rfl
    · split <;> rfl

theorem refresh_trace (conn : ElastiCache) (id : String) (tr : Trace) :
    (globalReplicationGroupStateRefreshFunc conn id tr).2 =
      tr ++ [.describe (describeInput id)] := by
  have h := getGlobalReplicationGroup_trace conn id tr
  unfold globalReplicationGroupStateRefreshFunc
  split <;> simp_all

theorem PollsAfter.refl (tr : Trace) : PollsAfter tr tr := ⟨[], by simp, by simp⟩

theorem PollsAfter.step {tr tr' : Trace} (id : String)
    (h : PollsAfter (tr ++ [.describe (describeInput id)]) tr') : PollsAfter tr tr' := by
  obtain ⟨polls, h1, h2⟩ := h
  refine ⟨.describe (describeInput id) :: polls, by simp [h1], ?_⟩
  intro r hr
  rcases List.mem_cons.mp hr with h | h
  · subst h; rfl
  · exact h2 r h

theorem waitLoop_trace (conf : StateChangeConf) (conn : ElastiCache) (id : String) :
    ∀ (fuel notfoundTick : Nat) (tr : Trace),
      PollsAfter tr
        (waitLoop conf (globalReplicationGroupStateRefreshFunc conn id) fuel notfoundTick tr).2 := by
  intro fuel
  induction fuel with
  | zero => intro nf tr; exact PollsAfter.refl tr
  | succ n ih =>
    intro nf tr
    have ht := refresh_trace conn id tr
    have one : PollsAfter tr (tr ++ [.describe (describeInput id)]) :=
      PollsAfter.step id (PollsAfter.refl _)
    unfold waitLoop
    generalize globalReplicationGroupStateRefreshFunc conn id tr = res at ht
    obtain ⟨r, tr1⟩ := res
    simp only at ht
    subst ht
    dsimp only
    split
    · exact one
    · split
      · split
        · exact one
        · split
          · exact one
          · exact PollsAfter.step id (ih _ _)
      · split
        · exact one
        · split
          · exact PollsAfter.step id (ih _ _)
          · split
            · exact one
            · exact PollsAfter.step id (ih _ _)

/-- What the last poll of a successful wait reported. -/
theorem waitLoop_ok (conf : StateChangeConf) (refresh : StateRefreshFunc) :
    ∀ (fuel notfoundTick : Nat) (tr : Trace),
      (waitLoop conf refresh fuel notfoundTick tr).1 = none →
      ∃ (tr0 : Trace) (r : RefreshResult),
        refresh tr0 = (r, (waitLoop conf refresh fuel notfoundTick tr).2) ∧ r.err = none ∧
        ((r.result = none ∧ conf.Target = []) ∨ (r.result ≠ none ∧ r.state ∈ conf.Target)) := by
  intro fuel
  induction fuel with
  | zero => intro nf tr h; simp [waitLoop] at h
  | succ n ih =>
    intro nf tr
    unfold waitLoop
    generalize hres : refresh tr = res
    obtain ⟨r, tr1⟩ := res
    dsimp only
    split
    · intro h; simp at h
    · rename_i herr
      split
      · rename_i hnone
        split
        · rename_i hT
          intro _
          exact ⟨tr, r, hres, herr, Or.inl ⟨hnone, List.length_eq_zero.mp hT⟩⟩
        · split
          · intro h; simp at h
          · exact ih _ _
      · rename_i g hsome
        split
        · rename_i hT
          intro _
          exact ⟨tr, r, hres, herr, Or.inr ⟨by simp [hsome], hT⟩⟩
        · split
          · exact ih _ _
          · split
            · intro h; simp at h
            · exact ih _ _

@[simp] theorem Set_schemaKeys (d : ResourceData) (key : String) (v : Value) :
    (d.Set key v).schemaKeys = d.schemaKeys := by
  unfold ResourceData.Set; split <;> rfl

@[simp] theorem Set_id (d : ResourceData) (key : String) (v : Value) :
    (d.Set key v).id = d.id := by
  unfold ResourceData.Set; split <;> rfl

theorem put_primary_of_ne (a : Attrs) (key : String) (v : Value)
    (h : key ≠ "primary_replication_group_id") :
    (a.put key v).primary_replication_group_id = a.primary_replication_group_id := by
  unfold Attrs.put
  cases v <;> dsimp only <;> split_ifs <;> rfl

theorem Set_primary_of_ne (d : ResourceData) (key : String) (v : Value)
    (h : key ≠ "primary_replication_group_id") :
    (d.Set key v).attrs.primary_replication_group_id = d.attrs.primary_replication_group_id := by
  unfold ResourceData.Set
  split
  · exact put_primary_of_ne _ _ _ h
  · rfl

theorem Set_members (d : ResourceData) (l : List MemberEntry) (h : "members" ∈ d.schemaKeys) :
    (d.Set "members" (.members l)).attrs.members = l := by
  simp [ResourceData.Set, h, Attrs.put]

theorem Set_primary (d : ResourceData) (s : String)
    (h : "primary_replication_group_id" ∈ d.schemaKeys) :
    (d.Set "primary_replication_group_id" (.str s)).attrs.primary_replication_group_id = s := by
  simp [ResourceData.Set, h, Attrs.put]

theorem membersLoop_fst :
    ∀ (ms : List GlobalReplicationGroupMember) (members : List MemberEntry) (d : ResourceData),
      (membersLoop ms members d).1 = members ++ ms.map flattenMember := by
  intro ms
  induction ms with
  | nil => intro members d; simp [membersLoop]
  | cons m rest ih => intro members d; simp [membersLoop, ih]

theorem membersLoop_schemaKeys :
    ∀ (ms : List GlobalReplicationGroupMember) (members : List MemberEntry) (d : ResourceData),
      (membersLoop ms members d).2.schemaKeys = d.schemaKeys := by
  intro ms
  induction ms with
  | nil => intro members d; simp [membersLoop]
  | cons m rest ih =>
    intro members d
    simp only [membersLoop, ih]
    split <;> simp

theorem primaryAfter_cons (before : String) (m : GlobalReplicationGroupMember)
    (rest : List GlobalReplicationGroupMember) :
    primaryAfter before (m :: rest) =
      primaryAfter (if isPrimary m then StringValue m.ReplicationGroupId else before) rest := by
  unfold primaryAfter
  by_cases hm : isPrimary m = true
  · simp only [List.filter_cons, hm, if_true]
    cases hr : List.filter isPrimary rest with
    | nil => simp
    | cons x xs =>
      rw [List.getLast?_cons_cons]
      rcases hl : (x :: xs).getLast? with _ | y
      · simp at hl
      · rfl
  · simp [List.filter_cons, hm]

theorem membersLoop_primary :
    ∀ (ms : List GlobalReplicationGroupMember) (members : List MemberEntry) (d : ResourceData),
      "primary_replication_group_id" ∈ d.schemaKeys →
      (membersLoop ms members d).2.attrs.primary_replication_group_id =
        primaryAfter d.attrs.primary_replication_group_id ms := by
  intro ms
  induction ms with
  | nil => intro members d _; simp [membersLoop, primaryAfter]
  | cons m rest ih =>
    intro members d hk
    rw [primaryAfter_cons]
    simp only [membersLoop]
    by_cases hm : StringValue m.Role = "PRIMARY"
    · rw [if_pos hm, ih _ _ (by simpa using hk), Set_primary _ _ hk]
      simp [isPrimary, hm]
    · rw [if_neg hm, ih _ _ hk]
      simp [isPrimary, hm]

theorem membersBlock_members (ms : List GlobalReplicationGroupMember) (d : ResourceData)
    (hk : "members" ∈ d.schemaKeys) :
    (match membersLoop ms [] d with
      | (members, d) => d.Set "members" (.members members)).attrs.members =
      ms.map flattenMember := by
  have h1 := membersLoop_fst ms [] d
  have h2 := membersLoop_schemaKeys ms [] d
  generalize membersLoop ms [] d = q at h1 h2
  obtain ⟨members, d1⟩ := q
  dsimp only at h1 h2 ⊢
  rw [Set_members _ _ (by rw [h2]; exact hk), h1]; simp

theorem setNestedAttributes_members (group : GlobalReplicationGroup) (d : ResourceData)
    (ms : List GlobalReplicationGroupMember) (hm : group.Members = some ms)
    (hk : "members" ∈ d.schemaKeys) :
    (setNestedAttributes group d).attrs.members = ms.map flattenMember := by
  unfold setNestedAttributes
  simp only [hm]
  split
  · exact membersBlock_members ms d hk
  · exact membersBlock_members ms _ (by simpa using hk)

theorem setNestedAttributes_primary (group : GlobalReplicationGroup) (d : ResourceData)
    (hk : "primary_replication_group_id" ∈ d.schemaKeys) :
    (setNestedAttributes group d).attrs.primary_replication_group_id =
      primaryAfter d.attrs.primary_replication_group_id (group.Members.getD []) := by
  unfold setNestedAttributes
  cases hm : group.Members with
  | none =>
    simp only [Option.getD, primaryAfter, List.filter_nil, List.getLast?_nil]
    split
    · rfl
    · exact Set_primary_of_ne _ _ _ (by decide)
  | some ms =>
    simp only [Option.getD]
    rw [Set_primary_of_ne _ _ _ (by decide)]
    split
    · exact membersLoop_primary ms [] d hk
    · rw [membersLoop_primary ms [] _ (by simpa using hk), Set_primary_of_ne _ _ _ (by decide)]

theorem getGlobalReplicationGroup_fst (conn : ElastiCache) (id : String) (tr : Trace) :
    (getGlobalReplicationGroup conn id tr).1 =
      match conn.DescribeGlobalReplicationGroups tr (describeInput id) with
      | .error err => .error (.client err)
      | .ok res =>
        match res.GlobalReplicationGroups with
        | [] => .ok none
        | group :: _ =>
          if StringValue group.GlobalReplicationGroupId ≠ id then .ok none else .ok (some group) := by
  unfold getGlobalReplicationGroup describeInput
  dsimp only
  generalize conn.DescribeGlobalReplicationGroups tr _ = resp
  rcases resp with e | res
  · rfl
  · dsimp only
    rcases res.GlobalReplicationGroups with _ | ⟨g, rest⟩
    · rfl
    · dsimp only
      split <;> rfl

theorem read_found (d : ResourceData) (conn : ElastiCache) (tr tr' : Trace)
    (group : GlobalReplicationGroup)
    (hg : getGlobalReplicationGroup conn d.Id tr = (.ok (some group), tr'))
    (hs : StringValue group.Status ≠ "deleting") :
    resourceAwsElasticacheGlobalReplicationGroupRead d conn tr =
      { err := none, d := setNestedAttributes group (resourceScalars group d), trace := tr' } := by
  unfold resourceAwsElasticacheGlobalReplicationGroupRead
  rw [hg]
  simp only [hs, if_false]
  rfl

theorem resourceScalars_schemaKeys (group : GlobalReplicationGroup) (d : ResourceData) :
    (resourceScalars group d).schemaKeys = d.schemaKeys := by
  simp [resourceScalars]

theorem resourceScalars_primary (group : GlobalReplicationGroup) (d : ResourceData) :
    (resourceScalars group d).attrs.primary_replication_group_id =
      d.attrs.primary_replication_group_id := by
  unfold resourceScalars
  repeat rw [Set_primary_of_ne _ _ _ (by decide)]

theorem dataSourceRead_found (d : ResourceData) (conn : ElastiCache) (tr tr' : Trace)
    (group : GlobalReplicationGroup)
    (hg : getGlobalReplicationGroup conn (d.GetString "global_replication_group_id") tr =
      (.ok (some group), tr')) :
    dataSourceAwsElasticacheGlobalReplicationGroupRead d conn tr =
      { err := none
        d := setNestedAttributes group
          (dataSourceScalars group (d.SetId (StringValue group.GlobalReplicationGroupId)))
        trace := tr' } := by
  unfold dataSourceAwsElasticacheGlobalReplicationGroupRead
  simp only [hg]
  rfl

theorem dataSourceScalars_schemaKeys (group : GlobalReplicationGroup) (d : ResourceData) :
    (dataSourceScalars group d).schemaKeys = d.schemaKeys := by
  simp [dataSourceScalars]

theorem sentAfter_append (tr s : Trace) : sentAfter tr (tr ++ s) = s := by
  simp [sentAfter]

theorem modifyInput_snd (d : ResourceData) :
    (modifyInput d).2 =
      (d.HasChange "automatic_failover_enabled" || d.HasChange "cache_node_type" ||
        d.HasChange "global_replication_group_description" || d.HasChange "engine_version") := by
  unfold modifyInput
  cases d.HasChange "automatic_failover_enabled" <;> cases d.HasChange "cache_node_type" <;>
    cases d.HasChange "global_replication_group_description" <;>
    cases d.HasChange "engine_version" <;> rfl

theorem modifyInput_fst (d : ResourceData) :
    (modifyInput d).1 =
      { ApplyImmediately := some true
        GlobalReplicationGroupId := some d.Id
        AutomaticFailoverEnabled :=
          if d.HasChange "automatic_failover_enabled" then
            some (d.GetBool "automatic_failover_enabled") else none
        CacheNodeType :=
          if d.HasChange "cache_node_type" then some (d.GetString "cache_node_type") else none
        GlobalReplicationGroupDescription :=
          if d.HasChange "global_replication_group_description" then
            some (d.GetString "global_replication_group_description") else none
        EngineVersion :=
          if d.HasChange "engine_version" then some (d.GetString "engine_version") else none } := by
  unfold modifyInput
  cases d.HasChange "automatic_failover_enabled" <;> cases d.HasChange "cache_node_type" <;>
    cases d.HasChange "global_replication_group_description" <;>
    cases d.HasChange "engine_version" <;> rfl

theorem modifyStep_not_required (d : ResourceData) (conn : ElastiCache) (tr : Trace)
    (h : (modifyInput d).2 = false) : modifyStep d conn tr = (none, tr) := by
  unfold modifyStep
  generalize modifyInput d = q at h
  obtain ⟨req, b⟩ := q
  simp only at h
  subst h
  rfl

theorem modifyStep_error (d : ResourceData) (conn : ElastiCache) (tr : Trace) (e : ClientErr)
    (h : (modifyInput d).2 = true)
    (he : conn.ModifyGlobalReplicationGroup tr (modifyInput d).1 = .error e) :
    modifyStep d conn tr =
      (some (.wrapf "modifying ElastiCache Global Replication Group (%s): %w" [d.Id] (.client e)),
        tr ++ [.modify (modifyInput d).1]) := by
  unfold modifyStep
  generalize modifyInput d = q at h he
  obtain ⟨req, b⟩ := q
  simp only at h he
  subst h
  simp only [he]

theorem modifyStep_ok (d : ResourceData) (conn : ElastiCache) (tr : Trace)
    (h : (modifyInput d).2 = true)
    (he : conn.ModifyGlobalReplicationGroup tr (modifyInput d).1 = .ok ()) :
    modifyStep d conn tr =
      match waitForGlobalReplicationGroupModification conn d.Id (d.Timeout .TimeoutUpdate)
          (tr ++ [.modify (modifyInput d).1]) with
      | (some err, tr) =>
        (some (.wrapf
          "waiting for ElastiCache Global Replication Group (%s) to finish modifications: %w"
          [d.Id] err), tr)
      | (none, tr) => (none, tr) := by
  unfold modifyStep
  generalize modifyInput d = q at h he
  obtain ⟨req, b⟩ := q
  simp only at h he
  subst h
  simp only [he]

theorem wait_trace (conf : StateChangeConf) (conn : ElastiCache) (id : String) (tr : Trace) :
    PollsAfter tr (conf.WaitForState (globalReplicationGroupStateRefreshFunc conn id) tr).2 :=
  waitLoop_trace conf conn id _ _ tr

/-- The requests of the modify step: none, or the modify request and then polls. -/
theorem modifyStep_trace (d : ResourceData) (conn : ElastiCache) (tr : Trace) :
    ∃ polls : Trace, (∀ r ∈ polls, r.isDescribe = true) ∧
      (modifyStep d conn tr).2 =
        tr ++ (if (modifyInput d).2 = true then .modify (modifyInput d).1 :: polls else []) := by
  cases h : (modifyInput d).2 with
  | false => exact ⟨[], by simp, by simp [modifyStep_not_required d conn tr h]⟩
  | true =>
    cases he : conn.ModifyGlobalReplicationGroup tr (modifyInput d).1 with
    | error e => exact ⟨[], by simp, by simp [modifyStep_error d conn tr e h he]⟩
    | ok u =>
      obtain ⟨polls, hp, hall⟩ := wait_trace (modificationConf (d.Timeout .TimeoutUpdate)) conn d.Id
        (tr ++ [.modify (modifyInput d).1])
      refine ⟨polls, hall, ?_⟩
      rw [modifyStep_ok d conn tr h he]
      unfold waitForGlobalReplicationGroupModification
      generalize (modificationConf (d.Timeout .TimeoutUpdate)).WaitForState
        (globalReplicationGroupStateRefreshFunc conn d.Id) (tr ++ [.modify (modifyInput d).1]) = w
        at hp
      obtain ⟨w1, w2⟩ := w
      simp only at hp
      subst hp
      cases w1 <;> simp

theorem ite_ne_of_ne {α : Type} {c : Prop} [Decidable c] {x y z : α} (hx : x ≠ z)
    (hy : y ≠ z) : (if c then x else y) ≠ z := by
  split <;> assumption

/-- The value that `Get` returns is never a `[]map[string]interface{}`. -/
theorem get_not_members (a : Attrs) (key : String) (l : List MemberEntry) :
    a.get key ≠ some (.members l) := by
  unfold Attrs.get
  repeat' apply ite_ne_of_ne
  all_goals intro h; cases h

/-- The type assertion of Update on the members list fails for every resource
data: `Get` never returns a `[]map[string]interface{}`. -/
theorem GetMembers_none (d : ResourceData) (key : String) : d.GetMembers key = none := by
  unfold ResourceData.GetMembers ResourceData.Get
  split
  · rename_i l hl
    exact absurd hl (get_not_members _ _ l)
  · rfl

/-- The failover block panics as soon as the primary has changed, before any
request, and does nothing otherwise. -/
theorem failoverStep_eq (d : ResourceData) (conn : ElastiCache) (tr : Trace) :
    failoverStep d conn tr =
      if d.HasChange "primary_replication_group_id" = true then (.panicked assertionPanic, tr)
      else (.returned none, tr) := by
  unfold failoverStep
  simp only [GetMembers_none]

theorem read_trace (d : ResourceData) (conn : ElastiCache) (tr : Trace) :
    (resourceAwsElasticacheGlobalReplicationGroupRead d conn tr).trace =
      tr ++ [.describe (describeInput d.Id)] := by
  have h := getGlobalReplicationGroup_trace conn d.Id tr
  unfold resourceAwsElasticacheGlobalReplicationGroupRead
  generalize getGlobalReplicationGroup conn d.Id tr = q at h
  obtain ⟨q1, q2⟩ := q
  simp only at h
  subst h
  rcases q1 with e | _ | g
  · dsimp only; split <;> rfl
  · rfl
  · dsimp only; split <;> rfl

theorem update_of_modify_error (d : ResourceData) (conn : ElastiCache) (tr : Trace) (e : Err)
    (h : (modifyStep d conn tr).1 = some e) :
    resourceAwsElasticacheGlobalReplicationGroupUpdate d conn tr =
      { err := some e, d := d, trace := (modifyStep d conn tr).2 } := by
  unfold resourceAwsElasticacheGlobalReplicationGroupUpdate
  generalize modifyStep d conn tr = q at h
  obtain ⟨e1, tr1⟩ := q
  simp only at h
  subst h
  rfl

/-- After a successful modify step Update panics when the primary has changed. -/
theorem update_of_primary_change (d : ResourceData) (conn : ElastiCache) (tr : Trace)
    (hm : (modifyStep d conn tr).1 = none)
    (hc : d.HasChange "primary_replication_group_id" = true) :
    resourceAwsElasticacheGlobalReplicationGroupUpdate d conn tr =
      { err := none, d := d, trace := (modifyStep d conn tr).2, panic := some assertionPanic } := by
  unfold resourceAwsElasticacheGlobalReplicationGroupUpdate
  generalize modifyStep d conn tr = q at hm
  obtain ⟨e1, tr1⟩ := q
  simp only at hm
  subst hm
  simp only [failoverStep_eq, hc, if_true]

/-- After a successful modify step Update ends with the read when the primary
has not changed. -/
theorem update_of_primary_unchanged (d : ResourceData) (conn : ElastiCache) (tr : Trace)
    (hm : (modifyStep d conn tr).1 = none)
    (hc : d.HasChange "primary_replication_group_id" = false) :
    resourceAwsElasticacheGlobalReplicationGroupUpdate d conn tr =
      resourceAwsElasticacheGlobalReplicationGroupRead d conn (modifyStep d conn tr).2 := by
  unfold resourceAwsElasticacheGlobalReplicationGroupUpdate
  generalize modifyStep d conn tr = q at hm
  obtain ⟨e1, tr1⟩ := q
  simp only at hm
  subst hm
  simp [failoverStep_eq, hc]

/-- The requests of Update, in order: the modify request and its polls when a
modification is required, and then at most the describe request of the closing
read. -/
theorem update_trace (d : ResourceData) (conn : ElastiCache) (tr : Trace) :
    ∃ polls rest : Trace, (∀ r ∈ polls, r.isDescribe = true) ∧
      (∀ r ∈ rest, r.isDescribe = true) ∧
      (resourceAwsElasticacheGlobalReplicationGroupUpdate d conn tr).trace =
        tr ++ ((if (modifyInput d).2 = true then .modify (modifyInput d).1 :: polls else []) ++
          rest) := by
  obtain ⟨polls, hpolls, hm⟩ := modifyStep_trace d conn tr
  cases he : (modifyStep d conn tr).1 with
  | some e =>
    refine ⟨polls, [], hpolls, by simp, ?_⟩
    rw [update_of_modify_error d conn tr e he, hm]; simp
  | none =>
    cases hc : d.HasChange "primary_replication_group_id" with
    | true =>
      refine ⟨polls, [], hpolls, by simp, ?_⟩
      rw [update_of_primary_change d conn tr he hc, hm]; simp
    | false =>
      refine ⟨polls, [.describe (describeInput d.Id)], hpolls, ?_, ?_⟩
      · intro r hr
        simp only [List.mem_singleton] at hr
        subst hr; rfl
      · rw [update_of_primary_unchanged d conn tr he hc, read_trace, hm]; simp

/-- Update sends no failover request. -/
theorem update_no_failover (d : ResourceData) (conn : ElastiCache) (tr : Trace) :
    ∀ r ∈ sentAfter tr (resourceAwsElasticacheGlobalReplicationGroupUpdate d conn tr).trace,
      r.isFailover = false := by
  obtain ⟨polls, rest, hpolls, hrest, htr⟩ := update_trace d conn tr
  rw [htr, sentAfter_append]
  have hd : ∀ r : Request, r.isDescribe = true → r.isFailover = false := by
    intro r h
    cases r <;> simp_all [Request.isDescribe, Request.isFailover]
  intro r hr
  rcases List.mem_append.mp hr with h1 | h2
  · split at h1
    · rcases List.mem_cons.mp h1 with h3 | h3
      · subst h3; rfl
      · exact hd r (hpolls r h3)
    · simp at h1
  · exact hd r (hrest r h2)

/-- Update sends a modify request exactly when a modification is required, and
then it is the request built from the changes. -/
theorem update_modify_sent (d : ResourceData) (conn : ElastiCache) (tr : Trace)
    (m : ModifyGlobalReplicationGroupInput) :
    .modify m ∈ sentAfter tr (resourceAwsElasticacheGlobalReplicationGroupUpdate d conn tr).trace ↔
      ((modifyInput d).2 = true ∧ m = (modifyInput d).1) := by
  obtain ⟨polls, rest, hpolls, hrest, htr⟩ := update_trace d conn tr
  rw [htr, sentAfter_append]
  have hnot : ∀ l : Trace, (∀ r ∈ l, r.isDescribe = true) → Request.modify m ∉ l := by
    intro l hl hmem
    have := hl _ hmem
    simp [Request.isDescribe] at this
  constructor
  · intro h
    rcases List.mem_append.mp h with h1 | h2
    · split at h1
      · rename_i hreq
        rcases List.mem_cons.mp h1 with h3 | h3
        · simp only [Request.modify.injEq] at h3
          exact ⟨hreq, h3⟩
        · exact absurd h3 (hnot polls hpolls)
      · simp at h1
    · exact absurd h2 (hnot rest hrest)
  · rintro ⟨hreq, rfl⟩
    simp [hreq]

/-! ## The claims -/

/-- C1 fails on the code: in every Update whose `primary_replication_group_id` has
changed and whose modify step, if any, succeeded, the type assertion on the
members list panics; Update returns no error and sends nothing after the modify
step.  At the concrete input the new primary rg-c is no member of the group, so
the claim asks for the error "new primary replication group ... must already be
a member with role SECONDARY and state associated", and Update panics. -/
theorem update_panics_instead_of_rejecting :
    (∀ (d : ResourceData) (conn : ElastiCache) (tr : Trace),
      d.HasChange "primary_replication_group_id" = true →
      (modifyStep d conn tr).1 = none →
      (resourceAwsElasticacheGlobalReplicationGroupUpdate d conn tr).panic =
        some assertionPanic ∧
      (resourceAwsElasticacheGlobalReplicationGroupUpdate d conn tr).err = none ∧
      (resourceAwsElasticacheGlobalReplicationGroupUpdate d conn tr).trace =
        (modifyStep d conn tr).2) ∧
    exampleUnknownPrimaryData.HasChange "primary_replication_group_id" = true ∧
    (modifyInput exampleUnknownPrimaryData).2 = false ∧
    (¬ ∃ m ∈ exampleUnknownPrimaryData.attrs.members,
      m.replication_group_id =
        exampleUnknownPrimaryData.GetString "primary_replication_group_id" ∧
      m.role = "SECONDARY" ∧ m.status = "associated") ∧
    resourceAwsElasticacheGlobalReplicationGroupUpdate exampleUnknownPrimaryData
        (exampleConn (always "available" [])) [] =
      { err := none, d := exampleUnknownPrimaryData, trace := [],
        panic := some assertionPanic } := by
  refine ⟨?_, by decide, by decide, by decide, by decide⟩
  intro d conn tr hc hm
  rw [update_of_primary_change d conn tr hm hc]
  exact ⟨rfl, rfl, rfl⟩

/-- C2 fails on the code: Update sends no FailoverGlobalReplicationGroup request,
for any resource data and any client.  At the concrete input the primary moves to
rg-b, a member with role SECONDARY, status associated and region us-west-2, and
Update panics at the type assertion on the members list without a request. -/
theorem update_never_sends_failover :
    (∀ (d : ResourceData) (conn : ElastiCache) (tr : Trace),
      ∀ r ∈ sentAfter tr (resourceAwsElasticacheGlobalReplicationGroupUpdate d conn tr).trace,
        r.isFailover = false) ∧
    (exampleFailoverData (some "us-west-2")).HasChange "primary_replication_group_id" = true ∧
    (∃ m ∈ (exampleFailoverData (some "us-west-2")).attrs.members,
      m.replication_group_id =
        (exampleFailoverData (some "us-west-2")).GetString "primary_replication_group_id" ∧
      m.role = "SECONDARY" ∧ m.status = "associated" ∧
      m.replication_group_region = "us-west-2") ∧
    resourceAwsElasticacheGlobalReplicationGroupUpdate (exampleFailoverData (some "us-west-2"))
        (exampleConn (always "available" [])) [] =
      { err := none, d := exampleFailoverData (some "us-west-2"), trace := [],
        panic := some assertionPanic } := by
  refine ⟨?_, by decide, by decide, by decide⟩
  intro d conn tr
  exact update_no_failover d conn tr

/-- C3 (amended): for every described group whose Members list is non-nil, the data
source read writes a `members` attribute with exactly one entry per API member, in
the order of the API, each field being the field of the member with nil mapped to
the empty string; the resource read writes the same list when the status of the
group is not "deleting". -/
theorem reads_flatten_members (d dd : ResourceData) (conn : ElastiCache) (tr tr' : Trace)
    (group : GlobalReplicationGroup) (ms : List GlobalReplicationGroupMember)
    (hd : d.schemaKeys = resourceSchemaKeys) (hdd : dd.schemaKeys = dataSourceSchemaKeys)
    (hg : getGlobalReplicationGroup conn d.Id tr = (.ok (some group), tr'))
    (hgd : getGlobalReplicationGroup conn (dd.GetString "global_replication_group_id") tr =
      (.ok (some group), tr'))
    (hm : group.Members = some ms) :
    (dataSourceAwsElasticacheGlobalReplicationGroupRead dd conn tr).d.attrs.members =
      ms.map (fun m =>
        { automatic_failover := StringValue m.AutomaticFailover
          replication_group_id := StringValue m.ReplicationGroupId
          replication_group_region := StringValue m.ReplicationGroupRegion
          role := StringValue m.Role
          status := StringValue m.Status }) ∧
    (StringValue group.Status ≠ "deleting" →
      (resourceAwsElasticacheGlobalReplicationGroupRead d conn tr).d.attrs.members =
        (dataSourceAwsElasticacheGlobalReplicationGroupRead dd conn tr).d.attrs.members) := by
  have hds : (dataSourceAwsElasticacheGlobalReplicationGroupRead dd conn tr).d.attrs.members =
      ms.map flattenMember := by
    rw [dataSourceRead_found dd conn tr tr' group hgd]
    apply setNestedAttributes_members _ _ _ hm
    rw [dataSourceScalars_schemaKeys]
    simp [ResourceData.SetId, hdd, dataSourceSchemaKeys]
  refine ⟨hds, ?_⟩
  intro hs
  rw [hds, read_found d conn tr tr' group hg hs]
  apply setNestedAttributes_members _ _ _ hm
  rw [resourceScalars_schemaKeys, hd]
  simp [resourceSchemaKeys]

/-- C3, at a concrete input: both reads of the available group with the members
rg-a and rg-b write the same two entries. -/
theorem reads_flatten_members_witness :
    (dataSourceAwsElasticacheGlobalReplicationGroupRead exampleDataSource
        (exampleConn (always "available" [memberA "PRIMARY", memberB "SECONDARY" none]))
        []).d.attrs.members =
      [memberA "PRIMARY", memberB "SECONDARY" none].map (fun m =>
        { automatic_failover := StringValue m.AutomaticFailover
          replication_group_id := StringValue m.ReplicationGroupId
          replication_group_region := StringValue m.ReplicationGroupRegion
          role := StringValue m.Role
          status := StringValue m.Status }) ∧
    (resourceAwsElasticacheGlobalReplicationGroupRead exampleData
        (exampleConn (always "available" [memberA "PRIMARY", memberB "SECONDARY" none]))
        []).d.attrs.members =
      (dataSourceAwsElasticacheGlobalReplicationGroupRead exampleDataSource
        (exampleConn (always "available" [memberA "PRIMARY", memberB "SECONDARY" none]))
        []).d.attrs.members :=
  ⟨(reads_flatten_members exampleData exampleDataSource
      (exampleConn (always "available" [memberA "PRIMARY", memberB "SECONDARY" none]))
      [] [.describe (describeInput "grg-1")]
      (exampleGroup "available" [memberA "PRIMARY", memberB "SECONDARY" none])
      [memberA "PRIMARY", memberB "SECONDARY" none] rfl rfl rfl rfl rfl).1,
   (reads_flatten_members exampleData exampleDataSource
      (exampleConn (always "available" [memberA "PRIMARY", memberB "SECONDARY" none]))
      [] [.describe (describeInput "grg-1")]
      (exampleGroup "available" [memberA "PRIMARY", memberB "SECONDARY" none])
      [memberA "PRIMARY", memberB "SECONDARY" none] rfl rfl rfl rfl rfl).2 (by decide)⟩

/-- C3 as stated fails: the described group is deleting and has a non-nil Members
list with one member; the resource read writes no `members` attribute, which
stays empty, while the data source read writes the one entry. -/
theorem resource_read_skips_members_of_deleting_group :
    (getGlobalReplicationGroup
        (exampleConn (always "deleting" [memberA "PRIMARY"])) "grg-1" []).1 =
      .ok (some (exampleGroup "deleting" [memberA "PRIMARY"])) ∧
    (exampleGroup "deleting" [memberA "PRIMARY"]).Members = some [memberA "PRIMARY"] ∧
    (resourceAwsElasticacheGlobalReplicationGroupRead exampleData
        (exampleConn (always "deleting" [memberA "PRIMARY"]))
        []).d.attrs.members = [] ∧
    (dataSourceAwsElasticacheGlobalReplicationGroupRead exampleDataSource
        (exampleConn (always "deleting" [memberA "PRIMARY"]))
        []).d.attrs.members = [flattenMember (memberA "PRIMARY")] := by
  refine ⟨rfl, rfl, by decide, by decide⟩

/-- C4: a wait returns success only when the last poll reached its target: the
creation and the modification wait only after the refresh function reported a
group with status "available" or "primary-only", the failover wait only after it
reported a group with status "available", and the deletion wait, whose target set
is empty, only after it reported the group as absent; and for each of the four
waits no status is both pending and target. -/
theorem waits_succeed_only_at_target (conn : ElastiCache) (id : String) (timeout : Nat)
    (tr : Trace) :
    ((waitForGlobalReplicationGroupCreation conn id timeout tr).1 = none →
      ∃ (tr0 : Trace) (r : RefreshResult),
        globalReplicationGroupStateRefreshFunc conn id tr0 =
          (r, (waitForGlobalReplicationGroupCreation conn id timeout tr).2) ∧
        r.err = none ∧ r.result ≠ none ∧ (r.state = "available" ∨ r.state = "primary-only")) ∧
    ((waitForGlobalReplicationGroupModification conn id timeout tr).1 = none →
      ∃ (tr0 : Trace) (r : RefreshResult),
        globalReplicationGroupStateRefreshFunc conn id tr0 =
          (r, (waitForGlobalReplicationGroupModification conn id timeout tr).2) ∧
        r.err = none ∧ r.result ≠ none ∧ (r.state = "available" ∨ r.state = "primary-only")) ∧
    ((waitForGlobalReplicationGroupFailover conn id timeout tr).1 = none →
      ∃ (tr0 : Trace) (r : RefreshResult),
        globalReplicationGroupStateRefreshFunc conn id tr0 =
          (r, (waitForGlobalReplicationGroupFailover conn id timeout tr).2) ∧
        r.err = none ∧ r.result ≠ none ∧ r.state = "available") ∧
    ((deletionConf timeout).Target = [] ∧
      ((waitForGlobalReplicationGroupDeletion conn id timeout tr).1 = none →
        ∃ (tr0 : Trace) (r : RefreshResult),
          globalReplicationGroupStateRefreshFunc conn id tr0 =
            (r, (waitForGlobalReplicationGroupDeletion conn id timeout tr).2) ∧
          r.err = none ∧ r.result = none)) ∧
    (∀ conf ∈ [creationConf timeout, modificationConf timeout, failoverConf timeout,
        deletionConf timeout], ∀ s, ¬ (s ∈ conf.Pending ∧ s ∈ conf.Target)) := by
  refine ⟨?_, ?_, ?_, ⟨rfl, ?_⟩, ?_⟩
  · intro h
    obtain ⟨tr0, r, h1, h2, h3⟩ := waitLoop_ok (creationConf timeout)
      (globalReplicationGroupStateRefreshFunc conn id) _ _ tr h
    refine ⟨tr0, r, h1, h2, ?_⟩
    rcases h3 with ⟨_, h4⟩ | ⟨h4, h5⟩
    · simp [creationConf] at h4
    · exact ⟨h4, by simpa [creationConf] using h5⟩
  · intro h
    obtain ⟨tr0, r, h1, h2, h3⟩ := waitLoop_ok (modificationConf timeout)
      (globalReplicationGroupStateRefreshFunc conn id) _ _ tr h
    refine ⟨tr0, r, h1, h2, ?_⟩
    rcases h3 with ⟨_, h4⟩ | ⟨h4, h5⟩
    · simp [modificationConf] at h4
    · exact ⟨h4, by simpa [modificationConf] using h5⟩
  · intro h
    obtain ⟨tr0, r, h1, h2, h3⟩ := waitLoop_ok (failoverConf timeout)
      (globalReplicationGroupStateRefreshFunc conn id) _ _ tr h
    refine ⟨tr0, r, h1, h2, ?_⟩
    rcases h3 with ⟨_, h4⟩ | ⟨h4, h5⟩
    · simp [failoverConf] at h4
    · exact ⟨h4, by simpa [failoverConf] using h5⟩
  · intro h
    obtain ⟨tr0, r, h1, h2, h3⟩ := waitLoop_ok (deletionConf timeout)
      (globalReplicationGroupStateRefreshFunc conn id) _ _ tr h
    refine ⟨tr0, r, h1, h2, ?_⟩
    rcases h3 with ⟨h4, _⟩ | ⟨_, h5⟩
    · exact h4
    · simp [deletionConf] at h5
  · intro conf hconf s
    simp only [List.mem_cons, List.mem_singleton, List.not_mem_nil, or_false] at hconf
    rcases hconf with rfl | rfl | rfl | rfl
    · simp only [creationConf, List.mem_cons, List.mem_singleton, List.not_mem_nil, or_false]
      rintro ⟨rfl, h⟩
      revert h; decide
    · simp only [modificationConf, List.mem_cons, List.mem_singleton, List.not_mem_nil, or_false]
      rintro ⟨rfl, h⟩
      revert h; decide
    · simp only [failoverConf, List.mem_cons, List.mem_singleton, List.not_mem_nil, or_false]
      rintro ⟨rfl, h⟩
      revert h; decide
    · simp [deletionConf]

/-- C4, at concrete inputs: the four waits succeed, against a primary-only group,
an available group, and a group that is gone at the third poll. -/
theorem waits_succeed_only_at_target_witness :
    (∃ (tr0 : Trace) (r : RefreshResult),
      globalReplicationGroupStateRefreshFunc (exampleConn (always "primary-only" [])) "grg-1" tr0 =
        (r, (waitForGlobalReplicationGroupCreation (exampleConn (always "primary-only" []))
          "grg-1" (60 * Minute) []).2) ∧
      r.err = none ∧ r.result ≠ none ∧ (r.state = "available" ∨ r.state = "primary-only")) ∧
    (∃ (tr0 : Trace) (r : RefreshResult),
      globalReplicationGroupStateRefreshFunc (exampleConn (always "available" [])) "grg-1" tr0 =
        (r, (waitForGlobalReplicationGroupModification (exampleConn (always "available" []))
          "grg-1" (60 * Minute) []).2) ∧
      r.err = none ∧ r.result ≠ none ∧ (r.state = "available" ∨ r.state = "primary-only")) ∧
    (∃ (tr0 : Trace) (r : RefreshResult),
      globalReplicationGroupStateRefreshFunc (exampleConn (always "available" [])) "grg-1" tr0 =
        (r, (waitForGlobalReplicationGroupFailover (exampleConn (always "available" []))
          "grg-1" (60 * Minute) []).2) ∧
      r.err = none ∧ r.result ≠ none ∧ r.state = "available") ∧
    (∃ (tr0 : Trace) (r : RefreshResult),
      globalReplicationGroupStateRefreshFunc (exampleConn (goneAfter 3)) "grg-1" tr0 =
        (r, (waitForGlobalReplicationGroupDeletion (exampleConn (goneAfter 3))
          "grg-1" (60 * Minute) []).2) ∧
      r.err = none ∧ r.result = none) :=
  ⟨(waits_succeed_only_at_target (exampleConn (always "primary-only" [])) "grg-1" (60 * Minute)
      []).1 (by decide),
   (waits_succeed_only_at_target (exampleConn (always "available" [])) "grg-1" (60 * Minute)
      []).2.1 (by decide),
   (waits_succeed_only_at_target (exampleConn (always "available" [])) "grg-1" (60 * Minute)
      []).2.2.1 (by decide),
   (waits_succeed_only_at_target (exampleConn (goneAfter 3)) "grg-1" (60 * Minute)
      []).2.2.2.1.2 (by decide)⟩

/-- C5: Delete sends exactly one DeleteGlobalReplicationGroup request, first, for
the resource ID and with RetainPrimaryReplicationGroup true, and after it only
polls; when the request fails with GlobalReplicationGroupNotFoundFault Delete
returns nil without polling; when it fails with another error Delete returns an
error that wraps it, without polling; when it succeeds Delete returns nil exactly
when the deletion wait returns nil. -/
theorem delete_request_and_result (d : ResourceData) (conn : ElastiCache) (tr : Trace) :
    (∃ polls : Trace, (∀ r ∈ polls, r.isDescribe = true) ∧
      (resourceAwsElasticacheGlobalReplicationGroupDelete d conn tr).trace =
        tr ++ .delete { GlobalReplicationGroupId := some d.Id
                        RetainPrimaryReplicationGroup := some true } :: polls) ∧
    (∀ e,
      conn.DeleteGlobalReplicationGroup tr
        { GlobalReplicationGroupId := some d.Id, RetainPrimaryReplicationGroup := some true } =
        .error e →
      isAWSErr (.client e) ErrCodeGlobalReplicationGroupNotFoundFault "" = true →
      (resourceAwsElasticacheGlobalReplicationGroupDelete d conn tr).err = none ∧
      (resourceAwsElasticacheGlobalReplicationGroupDelete d conn tr).trace =
        tr ++ [.delete { GlobalReplicationGroupId := some d.Id
                         RetainPrimaryReplicationGroup := some true }]) ∧
    (∀ e,
      conn.DeleteGlobalReplicationGroup tr
        { GlobalReplicationGroupId := some d.Id, RetainPrimaryReplicationGroup := some true } =
        .error e →
      isAWSErr (.client e) ErrCodeGlobalReplicationGroupNotFoundFault "" = false →
      (resourceAwsElasticacheGlobalReplicationGroupDelete d conn tr).err =
        some (.wrapf "deleting Global Replication Group (%s): %w" [d.Id] (.client e)) ∧
      (resourceAwsElasticacheGlobalReplicationGroupDelete d conn tr).trace =
        tr ++ [.delete { GlobalReplicationGroupId := some d.Id
                         RetainPrimaryReplicationGroup := some true }]) ∧
    (conn.DeleteGlobalReplicationGroup tr
        { GlobalReplicationGroupId := some d.Id, RetainPrimaryReplicationGroup := some true } =
        .ok () →
      ((resourceAwsElasticacheGlobalReplicationGroupDelete d conn tr).err = none ↔
        (waitForGlobalReplicationGroupDeletion conn d.Id (40 * Minute)
          (tr ++ [.delete { GlobalReplicationGroupId := some d.Id
                            RetainPrimaryReplicationGroup := some true }])).1 = none) ∧
      (resourceAwsElasticacheGlobalReplicationGroupDelete d conn tr).trace =
        (waitForGlobalReplicationGroupDeletion conn d.Id (40 * Minute)
          (tr ++ [.delete { GlobalReplicationGroupId := some d.Id
                            RetainPrimaryReplicationGroup := some true }])).2) := by
  have hw := wait_trace (deletionConf (40 * Minute)) conn d.Id (tr ++ [.delete (deleteInput d)])
  refine ⟨?_, ?_, ?_, ?_⟩
  · unfold resourceAwsElasticacheGlobalReplicationGroupDelete
    dsimp only
    cases he : conn.DeleteGlobalReplicationGroup tr (deleteInput d) with
    | error e =>
      refine ⟨[], by simp, ?_⟩
      dsimp only
      split <;> rfl
    | ok u =>
      obtain ⟨polls, hp, hall⟩ := hw
      refine ⟨polls, hall, ?_⟩
      dsimp only
      unfold waitForGlobalReplicationGroupDeletion
      generalize (deletionConf (40 * Minute)).WaitForState
        (globalReplicationGroupStateRefreshFunc conn d.Id) (tr ++ [.delete (deleteInput d)]) = w
        at hp
      obtain ⟨w1, w2⟩ := w
      simp only at hp
      subst hp
      cases w1 <;> simp [deleteInput]
  · intro e he hnf
    unfold resourceAwsElasticacheGlobalReplicationGroupDelete
    simp [deleteInput, he, hnf]
  · intro e he hnf
    unfold resourceAwsElasticacheGlobalReplicationGroupDelete
    simp [deleteInput, he, hnf]
  · intro he
    unfold resourceAwsElasticacheGlobalReplicationGroupDelete
    simp only [deleteInput, he]
    generalize waitForGlobalReplicationGroupDeletion conn d.Id _ _ = w
    rcases w with ⟨_ | e, t⟩ <;> simp

/-- C5, at concrete inputs: a delete request that fails with the not-found fault,
one that fails with another fault, and one that succeeds. -/
theorem delete_request_and_result_witness :
    ((resourceAwsElasticacheGlobalReplicationGroupDelete exampleData
        (failingConn (.aws "GlobalReplicationGroupNotFoundFault" "gone") (goneAfter 0)) []).err =
        none ∧
      (resourceAwsElasticacheGlobalReplicationGroupDelete exampleData
        (failingConn (.aws "GlobalReplicationGroupNotFoundFault" "gone") (goneAfter 0)) []).trace =
        [] ++ [.delete { GlobalReplicationGroupId := some exampleData.Id
                         RetainPrimaryReplicationGroup := some true }]) ∧
    ((resourceAwsElasticacheGlobalReplicationGroupDelete exampleData
        (failingConn (.aws "InvalidGlobalReplicationGroupState" "busy") (goneAfter 0)) []).err =
        some (.wrapf "deleting Global Replication Group (%s): %w" [exampleData.Id]
          (.client (.aws "InvalidGlobalReplicationGroupState" "busy"))) ∧
      (resourceAwsElasticacheGlobalReplicationGroupDelete exampleData
        (failingConn (.aws "InvalidGlobalReplicationGroupState" "busy") (goneAfter 0)) []).trace =
        [] ++ [.delete { GlobalReplicationGroupId := some exampleData.Id
                         RetainPrimaryReplicationGroup := some true }]) ∧
    (((resourceAwsElasticacheGlobalReplicationGroupDelete exampleData (exampleConn (goneAfter 3))
        []).err = none ↔
        (waitForGlobalReplicationGroupDeletion (exampleConn (goneAfter 3)) exampleData.Id
          (40 * Minute)
          ([] ++ [.delete { GlobalReplicationGroupId := some exampleData.Id
                            RetainPrimaryReplicationGroup := some true }])).1 = none) ∧
      (resourceAwsElasticacheGlobalReplicationGroupDelete exampleData (exampleConn (goneAfter 3))
        []).trace =
        (waitForGlobalReplicationGroupDeletion (exampleConn (goneAfter 3)) exampleData.Id
          (40 * Minute)
          ([] ++ [.delete { GlobalReplicationGroupId := some exampleData.Id
                            RetainPrimaryReplicationGroup := some true }])).2) :=
  ⟨(delete_request_and_result exampleData
      (failingConn (.aws "GlobalReplicationGroupNotFoundFault" "gone") (goneAfter 0)) []).2.1 _
      rfl (by decide),
   (delete_request_and_result exampleData
      (failingConn (.aws "InvalidGlobalReplicationGroupState" "busy") (goneAfter 0)) []).2.2.1 _
      rfl (by decide),
   (delete_request_and_result exampleData (exampleConn (goneAfter 3)) []).2.2.2 rfl⟩

/-- C6: the resource read sets the ID to the empty string, returns nil and leaves
every attribute as it was when the describe call fails with
GlobalReplicationGroupNotFoundFault, returns an empty list, returns a first group
with another ID, or returns a first group whose status is "deleting"; on any
other describe error it returns that error and leaves the resource data
unchanged. -/
theorem read_removes_from_state_or_fails (d : ResourceData) (conn : ElastiCache) (tr : Trace) :
    (∀ e, conn.DescribeGlobalReplicationGroups tr (describeInput d.Id) = .error e →
      isAWSErr (.client e) ErrCodeGlobalReplicationGroupNotFoundFault "" = true →
      (resourceAwsElasticacheGlobalReplicationGroupRead d conn tr).err = none ∧
      (resourceAwsElasticacheGlobalReplicationGroupRead d conn tr).d.id = "" ∧
      (resourceAwsElasticacheGlobalReplicationGroupRead d conn tr).d.attrs = d.attrs) ∧
    (conn.DescribeGlobalReplicationGroups tr (describeInput d.Id) = .ok ⟨[]⟩ →
      (resourceAwsElasticacheGlobalReplicationGroupRead d conn tr).err = none ∧
      (resourceAwsElasticacheGlobalReplicationGroupRead d conn tr).d.id = "" ∧
      (resourceAwsElasticacheGlobalReplicationGroupRead d conn tr).d.attrs = d.attrs) ∧
    (∀ group rest,
      conn.DescribeGlobalReplicationGroups tr (describeInput d.Id) = .ok ⟨group :: rest⟩ →
      StringValue group.GlobalReplicationGroupId ≠ d.Id →
      (resourceAwsElasticacheGlobalReplicationGroupRead d conn tr).err = none ∧
      (resourceAwsElasticacheGlobalReplicationGroupRead d conn tr).d.id = "" ∧
      (resourceAwsElasticacheGlobalReplicationGroupRead d conn tr).d.attrs = d.attrs) ∧
    (∀ group rest,
      conn.DescribeGlobalReplicationGroups tr (describeInput d.Id) = .ok ⟨group :: rest⟩ →
      StringValue group.Status = "deleting" →
      (resourceAwsElasticacheGlobalReplicationGroupRead d conn tr).err = none ∧
      (resourceAwsElasticacheGlobalReplicationGroupRead d conn tr).d.id = "" ∧
      (resourceAwsElasticacheGlobalReplicationGroupRead d conn tr).d.attrs = d.attrs) ∧
    (∀ e, conn.DescribeGlobalReplicationGroups tr (describeInput d.Id) = .error e →
      isAWSErr (.client e) ErrCodeGlobalReplicationGroupNotFoundFault "" = false →
      (resourceAwsElasticacheGlobalReplicationGroupRead d conn tr).err = some (.client e) ∧
      (resourceAwsElasticacheGlobalReplicationGroupRead d conn tr).d = d) := by
  have hfst := getGlobalReplicationGroup_fst conn d.Id tr
  refine ⟨?_, ?_, ?_, ?_, ?_⟩
  · intro e he hnf
    rw [he] at hfst
    unfold resourceAwsElasticacheGlobalReplicationGroupRead
    generalize getGlobalReplicationGroup conn d.Id tr = q at hfst
    obtain ⟨q1, q2⟩ := q
    simp only at hfst
    subst hfst
    simp [hnf, ResourceData.SetId]
  · intro he
    rw [he] at hfst
    unfold resourceAwsElasticacheGlobalReplicationGroupRead
    generalize getGlobalReplicationGroup conn d.Id tr = q at hfst
    obtain ⟨q1, q2⟩ := q
    simp only at hfst
    subst hfst
    simp [ResourceData.SetId]
  · intro group rest he hid
    rw [he] at hfst
    unfold resourceAwsElasticacheGlobalReplicationGroupRead
    generalize getGlobalReplicationGroup conn d.Id tr = q at hfst
    obtain ⟨q1, q2⟩ := q
    simp only [hid, ne_eq, not_false_eq_true, if_true] at hfst
    subst hfst
    simp [ResourceData.SetId]
  · intro group rest he hst
    rw [he] at hfst
    unfold resourceAwsElasticacheGlobalReplicationGroupRead
    generalize getGlobalReplicationGroup conn d.Id tr = q at hfst
    obtain ⟨q1, q2⟩ := q
    simp only at hfst
    subst hfst
    split_ifs <;> simp [ResourceData.SetId, hst]
  · intro e he hnf
    rw [he] at hfst
    unfold resourceAwsElasticacheGlobalReplicationGroupRead
    generalize getGlobalReplicationGroup conn d.Id tr = q at hfst
    obtain ⟨q1, q2⟩ := q
    simp only at hfst
    subst hfst
    simp [hnf]

/-- C6, at concrete inputs: one world for each of the five cases. -/
theorem read_removes_from_state_or_fails_witness :
    ((resourceAwsElasticacheGlobalReplicationGroupRead exampleData
        (failingConn (.other "") fun _ => .error (.aws "GlobalReplicationGroupNotFoundFault" "gone"))
        []).err = none ∧
      (resourceAwsElasticacheGlobalReplicationGroupRead exampleData
        (failingConn (.other "") fun _ => .error (.aws "GlobalReplicationGroupNotFoundFault" "gone"))
        []).d.id = "" ∧
      (resourceAwsElasticacheGlobalReplicationGroupRead exampleData
        (failingConn (.other "") fun _ => .error (.aws "GlobalReplicationGroupNotFoundFault" "gone"))
        []).d.attrs = exampleData.attrs) ∧
    ((resourceAwsElasticacheGlobalReplicationGroupRead exampleData (exampleConn (goneAfter 0))
        []).err = none ∧
      (resourceAwsElasticacheGlobalReplicationGroupRead exampleData (exampleConn (goneAfter 0))
        []).d.id = "" ∧
      (resourceAwsElasticacheGlobalReplicationGroupRead exampleData (exampleConn (goneAfter 0))
        []).d.attrs = exampleData.attrs) ∧
    ((resourceAwsElasticacheGlobalReplicationGroupRead { exampleData with id := "grg-2" }
        (exampleConn (always "available" [])) []).err = none ∧
      (resourceAwsElasticacheGlobalReplicationGroupRead { exampleData with id := "grg-2" }
        (exampleConn (always "available" [])) []).d.id = "" ∧
      (resourceAwsElasticacheGlobalReplicationGroupRead { exampleData with id := "grg-2" }
        (exampleConn (always "available" [])) []).d.attrs = exampleData.attrs) ∧
    ((resourceAwsElasticacheGlobalReplicationGroupRead exampleData
        (exampleConn (always "deleting" [memberA "PRIMARY"])) []).err = none ∧
      (resourceAwsElasticacheGlobalReplicationGroupRead exampleData
        (exampleConn (always "deleting" [memberA "PRIMARY"])) []).d.id = "" ∧
      (resourceAwsElasticacheGlobalReplicationGroupRead exampleData
        (exampleConn (always "deleting" [memberA "PRIMARY"])) []).d.attrs = exampleData.attrs) ∧
    ((resourceAwsElasticacheGlobalReplicationGroupRead exampleData
        (exampleConn fun _ => .error (.aws "Throttling" "slow down")) []).err =
        some (.client (.aws "Throttling" "slow down")) ∧
      (resourceAwsElasticacheGlobalReplicationGroupRead exampleData
        (exampleConn fun _ => .error (.aws "Throttling" "slow down")) []).d = exampleData) :=
  ⟨(read_removes_from_state_or_fails exampleData
      (failingConn (.other "") fun _ => .error (.aws "GlobalReplicationGroupNotFoundFault" "gone"))
      []).1 _ rfl (by decide),
   (read_removes_from_state_or_fails exampleData (exampleConn (goneAfter 0)) []).2.1 rfl,
   (read_removes_from_state_or_fails { exampleData with id := "grg-2" }
      (exampleConn (always "available" [])) []).2.2.1 _ _ rfl (by decide),
   (read_removes_from_state_or_fails exampleData
      (exampleConn (always "deleting" [memberA "PRIMARY"])) []).2.2.2.1 _ _ rfl (by decide),
   (read_removes_from_state_or_fails exampleData
      (exampleConn fun _ => .error (.aws "Throttling" "slow down")) []).2.2.2.2 _ rfl
      (by decide)⟩

/-- C7 fails on the code for the deletion wait: the error and the requests of Delete
are the same whatever timeouts are configured.  With a delete timeout of one
minute configured and a group that is gone at the sixth poll, a deletion wait
bounded by the configured timeout times out, but Delete polls six times and
returns nil. -/
theorem delete_wait_ignores_configured_timeout :
    (∀ (d : ResourceData) (conn : ElastiCache) (tr : Trace) (configured : ResourceTimeout),
      (resourceAwsElasticacheGlobalReplicationGroupDelete { d with timeouts := configured }
          conn tr).err =
        (resourceAwsElasticacheGlobalReplicationGroupDelete d conn tr).err ∧
      (resourceAwsElasticacheGlobalReplicationGroupDelete { d with timeouts := configured }
          conn tr).trace =
        (resourceAwsElasticacheGlobalReplicationGroupDelete d conn tr).trace) ∧
    exampleShortDelete.Timeout .TimeoutDelete = 1 * Minute ∧
    (waitForGlobalReplicationGroupDeletion (exampleConn (goneAfter 6)) "grg-1"
      (exampleShortDelete.Timeout .TimeoutDelete)
      [.delete (deleteInput exampleShortDelete)]).1 = some Err.timeout ∧
    (resourceAwsElasticacheGlobalReplicationGroupDelete exampleShortDelete
      (exampleConn (goneAfter 6)) []).err = none ∧
    ((resourceAwsElasticacheGlobalReplicationGroupDelete exampleShortDelete
      (exampleConn (goneAfter 6)) []).trace.filter Request.isDescribe).length = 6 := by
  refine ⟨?_, by decide, by decide, by decide, by decide⟩
  intro d conn tr configured
  unfold resourceAwsElasticacheGlobalReplicationGroupDelete
  simp only [deleteInput, ResourceData.Id]
  generalize conn.DeleteGlobalReplicationGroup tr _ = resp
  rcases resp with e | u
  · dsimp only
    split <;> exact ⟨rfl, rfl⟩
  · dsimp only
    generalize waitForGlobalReplicationGroupDeletion conn d.id _ _ = w
    rcases w with ⟨_ | e, t⟩ <;> exact ⟨rfl, rfl⟩

/-- C8: Update sends a ModifyGlobalReplicationGroup request if and only if one of
`automatic_failover_enabled`, `cache_node_type`,
`global_replication_group_description` and `engine_version` has changed; a modify
request that is sent carries the resource ID, ApplyImmediately true, the new value
of each changed attribute, and nil for each unchanged attribute. -/
theorem update_modify_request (d : ResourceData) (conn : ElastiCache) (tr : Trace) :
    ((∃ m, .modify m ∈
        sentAfter tr (resourceAwsElasticacheGlobalReplicationGroupUpdate d conn tr).trace) ↔
      (d.HasChange "automatic_failover_enabled" = true ∨ d.HasChange "cache_node_type" = true ∨
        d.HasChange "global_replication_group_description" = true ∨
        d.HasChange "engine_version" = true)) ∧
    (∀ m, .modify m ∈
        sentAfter tr (resourceAwsElasticacheGlobalReplicationGroupUpdate d conn tr).trace →
      m.GlobalReplicationGroupId = some d.Id ∧ m.ApplyImmediately = some true ∧
      m.AutomaticFailoverEnabled =
        (if d.HasChange "automatic_failover_enabled" = true then
          some (d.GetBool "automatic_failover_enabled") else none) ∧
      m.CacheNodeType =
        (if d.HasChange "cache_node_type" = true then some (d.GetString "cache_node_type")
          else none) ∧
      m.GlobalReplicationGroupDescription =
        (if d.HasChange "global_replication_group_description" = true then
          some (d.GetString "global_replication_group_description") else none) ∧
      m.EngineVersion =
        (if d.HasChange "engine_version" = true then some (d.GetString "engine_version")
          else none)) := by
  constructor
  · constructor
    · rintro ⟨m, hm⟩
      have h := ((update_modify_sent d conn tr m).mp hm).1
      rw [modifyInput_snd] at h
      simpa [Bool.or_eq_true, or_assoc] using h
    · intro h
      refine ⟨(modifyInput d).1, (update_modify_sent d conn tr _).mpr ⟨?_, rfl⟩⟩
      rw [modifyInput_snd]
      simpa [Bool.or_eq_true, or_assoc] using h
  · intro m hm
    obtain ⟨_, rfl⟩ := (update_modify_sent d conn tr m).mp hm
    rw [modifyInput_fst]
    exact ⟨rfl, rfl, rfl, rfl, rfl, rfl⟩

/-- C8, at a concrete input: the node type changed, and the modify request with
the new node type is sent. -/
theorem update_modify_request_witness :
    Request.modify
        { ApplyImmediately := some true
          CacheNodeType := some "cache.r6g.large"
          GlobalReplicationGroupId := some "grg-1" } ∈
      sentAfter [] (resourceAwsElasticacheGlobalReplicationGroupUpdate exampleModifyData
        (exampleConn (always "available" [])) []).trace ∧
    (some "cache.r6g.large" =
      if exampleModifyData.HasChange "cache_node_type" = true then
        some (exampleModifyData.GetString "cache_node_type") else none) :=
  ⟨by decide,
    ((update_modify_request exampleModifyData (exampleConn (always "available" [])) []).2
      { ApplyImmediately := some true
        CacheNodeType := some "cache.r6g.large"
        GlobalReplicationGroupId := some "grg-1" } (by decide)).2.2.2.1⟩

/-- C9: Update sends no FailoverGlobalReplicationGroup request, so none is sent
unless every ModifyGlobalReplicationGroup request sent before it returned without
error and its modification wait returned nil; when the modify request fails, or
its wait fails, Update returns an error that wraps that error and sends no
failover request. -/
theorem update_failover_only_after_modify (d : ResourceData) (conn : ElastiCache) (tr : Trace) :
    (∀ r ∈ sentAfter tr (resourceAwsElasticacheGlobalReplicationGroupUpdate d conn tr).trace,
      r.isFailover = false) ∧
    (∀ m e,
      .modify m ∈
        sentAfter tr (resourceAwsElasticacheGlobalReplicationGroupUpdate d conn tr).trace →
      conn.ModifyGlobalReplicationGroup tr m = .error e →
      (resourceAwsElasticacheGlobalReplicationGroupUpdate d conn tr).err =
        some (.wrapf "modifying ElastiCache Global Replication Group (%s): %w" [d.Id]
          (.client e)) ∧
      (resourceAwsElasticacheGlobalReplicationGroupUpdate d conn tr).panic = none ∧
      ∀ r ∈ sentAfter tr (resourceAwsElasticacheGlobalReplicationGroupUpdate d conn tr).trace,
        r.isFailover = false) ∧
    (∀ m e,
      .modify m ∈
        sentAfter tr (resourceAwsElasticacheGlobalReplicationGroupUpdate d conn tr).trace →
      conn.ModifyGlobalReplicationGroup tr m = .ok () →
      (waitForGlobalReplicationGroupModification conn d.Id (d.Timeout .TimeoutUpdate)
        (tr ++ [.modify m])).1 = some e →
      (resourceAwsElasticacheGlobalReplicationGroupUpdate d conn tr).err =
        some (.wrapf
          "waiting for ElastiCache Global Replication Group (%s) to finish modifications: %w"
          [d.Id] e) ∧
      (resourceAwsElasticacheGlobalReplicationGroupUpdate d conn tr).panic = none ∧
      ∀ r ∈ sentAfter tr (resourceAwsElasticacheGlobalReplicationGroupUpdate d conn tr).trace,
        r.isFailover = false) := by
  have nofail := update_no_failover d conn tr
  refine ⟨nofail, ?_, ?_⟩
  · intro m e hm he
    obtain ⟨hreq, rfl⟩ := (update_modify_sent d conn tr m).mp hm
    have hstep := modifyStep_error d conn tr e hreq he
    have h1 : (modifyStep d conn tr).1 = some (.wrapf
        "modifying ElastiCache Global Replication Group (%s): %w" [d.Id] (.client e)) := by
      rw [hstep]
    refine ⟨?_, ?_, nofail⟩ <;> rw [update_of_modify_error d conn tr _ h1]
  · intro m e hm he hw
    obtain ⟨hreq, rfl⟩ := (update_modify_sent d conn tr m).mp hm
    have hstep := modifyStep_ok d conn tr hreq he
    have h1 : (modifyStep d conn tr).1 = some (.wrapf
        "waiting for ElastiCache Global Replication Group (%s) to finish modifications: %w"
        [d.Id] e) := by
      rw [hstep]
      generalize waitForGlobalReplicationGroupModification conn d.Id _ _ = w at hw
      rcases w with ⟨_ | e', t⟩
      · cases hw
      · simp only [Option.some.injEq] at hw
        subst hw; rfl
    refine ⟨?_, ?_, nofail⟩ <;> rw [update_of_modify_error d conn tr _ h1]

/-- C9, at concrete inputs: a modify request that fails and a modification wait
that fails; in both runs the primary has changed too, and no failover request is
sent. -/
theorem update_failover_only_after_modify_witness :
    ((resourceAwsElasticacheGlobalReplicationGroupUpdate exampleModifyData
        (failingConn (.other "connection reset") (always "available" [])) []).err =
        some (.wrapf "modifying ElastiCache Global Replication Group (%s): %w"
          [exampleModifyData.Id] (.client (.other "connection reset"))) ∧
      (resourceAwsElasticacheGlobalReplicationGroupUpdate exampleModifyData
        (failingConn (.other "connection reset") (always "available" [])) []).panic = none ∧
      ∀ r ∈ sentAfter [] (resourceAwsElasticacheGlobalReplicationGroupUpdate exampleModifyData
          (failingConn (.other "connection reset") (always "available" [])) []).trace,
        r.isFailover = false) ∧
    ((resourceAwsElasticacheGlobalReplicationGroupUpdate exampleModifyData
        (exampleConn (always "restore-failed" [])) []).err =
        some (.wrapf
          "waiting for ElastiCache Global Replication Group (%s) to finish modifications: %w"
          [exampleModifyData.Id] (.unexpectedState "restore-failed")) ∧
      (resourceAwsElasticacheGlobalReplicationGroupUpdate exampleModifyData
        (exampleConn (always "restore-failed" [])) []).panic = none ∧
      ∀ r ∈ sentAfter [] (resourceAwsElasticacheGlobalReplicationGroupUpdate exampleModifyData
          (exampleConn (always "restore-failed" [])) []).trace,
        r.isFailover = false) :=
  ⟨(update_failover_only_after_modify exampleModifyData
      (failingConn (.other "connection reset") (always "available" [])) []).2.1
      { ApplyImmediately := some true
        CacheNodeType := some "cache.r6g.large"
        GlobalReplicationGroupId := some "grg-1" } (.other "connection reset") (by decide) rfl,
   (update_failover_only_after_modify exampleModifyData
      (exampleConn (always "restore-failed" [])) []).2.2
      { ApplyImmediately := some true
        CacheNodeType := some "cache.r6g.large"
        GlobalReplicationGroupId := some "grg-1" } (.unexpectedState "restore-failed")
      (by decide) rfl (by decide)⟩

/-- C10 (amended): a resource read of a group that is found and not deleting
returns nil; when the Members list holds a member with role PRIMARY,
`primary_replication_group_id` is afterwards the ReplicationGroupId, nil as the
empty string, of the last such member; when the Members list is nil or holds no
member with role PRIMARY, the attribute is left as it was before the read. -/
theorem read_sets_primary_from_last_primary_member (d : ResourceData) (conn : ElastiCache)
    (tr tr' : Trace) (group : GlobalReplicationGroup)
    (hd : d.schemaKeys = resourceSchemaKeys)
    (hg : getGlobalReplicationGroup conn d.Id tr = (.ok (some group), tr'))
    (hs : StringValue group.Status ≠ "deleting") :
    (resourceAwsElasticacheGlobalReplicationGroupRead d conn tr).err = none ∧
    (∀ ms m, group.Members = some ms →
      (ms.filter (fun x => decide (StringValue x.Role = "PRIMARY"))).getLast? = some m →
      (resourceAwsElasticacheGlobalReplicationGroupRead d conn tr).d.attrs.primary_replication_group_id =
        StringValue m.ReplicationGroupId) ∧
    ((∀ ms, group.Members = some ms → ∀ m ∈ ms, StringValue m.Role ≠ "PRIMARY") →
      (resourceAwsElasticacheGlobalReplicationGroupRead d conn tr).d.attrs.primary_replication_group_id =
        d.attrs.primary_replication_group_id) := by
  have hk : "primary_replication_group_id" ∈ (resourceScalars group d).schemaKeys := by
    rw [resourceScalars_schemaKeys, hd]; simp [resourceSchemaKeys]
  have key := setNestedAttributes_primary group (resourceScalars group d) hk
  rw [resourceScalars_primary] at key
  rw [read_found d conn tr tr' group hg hs]
  refine ⟨rfl, ?_, ?_⟩
  · intro ms m hm hlast
    show (setNestedAttributes group (resourceScalars group d)).attrs.primary_replication_group_id = _
    rw [key, hm]
    have hl : (ms.filter isPrimary).getLast? = some m := hlast
    simp [primaryAfter, hl]
  · intro hnone
    show (setNestedAttributes group (resourceScalars group d)).attrs.primary_replication_group_id = _
    rw [key]
    cases hm : group.Members with
    | none => simp [primaryAfter]
    | some ms =>
      have hf : ms.filter isPrimary = [] := by
        rw [List.filter_eq_nil_iff]
        intro m hmem
        simpa [isPrimary] using hnone ms hm m hmem
      simp [primaryAfter, hf]

/-- C10, at a concrete input: rg-b is the only PRIMARY member and becomes the
value of the attribute. -/
theorem read_sets_primary_from_last_primary_member_witness :
    (resourceAwsElasticacheGlobalReplicationGroupRead exampleData
      (exampleConn (always "available" [memberA "SECONDARY", memberB "PRIMARY" none]))
      []).d.attrs.primary_replication_group_id = "rg-b" :=
  (read_sets_primary_from_last_primary_member exampleData
    (exampleConn (always "available" [memberA "SECONDARY", memberB "PRIMARY" none]))
    [] [.describe (describeInput "grg-1")]
    (exampleGroup "available" [memberA "SECONDARY", memberB "PRIMARY" none]) rfl rfl (by decide)).2.1
    [memberA "SECONDARY", memberB "PRIMARY" none] (memberB "PRIMARY" none) rfl rfl

/-- C10 as stated fails: the group is found and not deleting, its only member rg-a
has role SECONDARY, and after the successful read `primary_replication_group_id`
still holds rg-a, the ID of a member whose role is not PRIMARY. -/
theorem read_keeps_stale_primary_of_secondary_member :
    (resourceAwsElasticacheGlobalReplicationGroupRead exampleData
      (exampleConn (always "available" [memberA "SECONDARY"])) []).err = none ∧
    (resourceAwsElasticacheGlobalReplicationGroupRead exampleData
      (exampleConn (always "available" [memberA "SECONDARY"])) []).d.id =
      "grg-1" ∧
    (resourceAwsElasticacheGlobalReplicationGroupRead exampleData
      (exampleConn (always "available" [memberA "SECONDARY"]))
      []).d.attrs.members = [flattenMember (memberA "SECONDARY")] ∧
    StringValue (memberA "SECONDARY").Role ≠ "PRIMARY" ∧
    (resourceAwsElasticacheGlobalReplicationGroupRead exampleData
      (exampleConn (always "available" [memberA "SECONDARY"]))
      []).d.attrs.primary_replication_group_id = StringValue (memberA "SECONDARY").ReplicationGroupId := by
  refine ⟨by decide, by decide, by decide, by decide, by decide⟩

end ElastiCacheGRG
